import Mathlib

/-! AGPS connection arbitration (gps/gnss/Agps.h) and the HIDL bridges of gps/android.

A shallow embedding of the subscriber, state-machine and manager classes of
`gps/gnss/Agps.h`, of `AGnss` (android/1.0/AGnss.cpp), of the callback slots of
`GnssMeasurement` (android/1.1/GnssMeasurement.cpp) and of `GnssDebug::getDebugData`
(android/1.1/GnssDebug.cpp), followed by the properties proved about them.

Conventions of the embedding
* `int` connection handles are `Int`; `LocApnTypeMask` (an unsigned mask) is `Nat`;
  `AGpsExtType` is `Int` (the header lists the values 0, 1, 3 and 5).
* A pointer that may be `NULL` is an `Option`; a callback (a function pointer or a
  `std::function`) is `Option Nat`: `none` is the null / empty callback, `some k`
  a callback identified by `k`.
* `std::list<AgpsSubscriber*>` is a `List AgpsSubscriber` in list order.
* Callback invocations are recorded as a list of `AgpsAction`s, oldest first.
-/

/-! ## Data model: enumerations of Agps.h -/

/-- AGPS states, `AgpsState` of Agps.h lines 52-59. -/
inductive AgpsState where
  | AGPS_STATE_INVALID
  | AGPS_STATE_RELEASED
  | AGPS_STATE_PENDING
  | AGPS_STATE_ACQUIRED
  | AGPS_STATE_RELEASING
  deriving DecidableEq, Repr

/-- AGPS events, `AgpsEvent` of Agps.h lines 61-68. -/
inductive AgpsEvent where
  | AGPS_EVENT_INVALID
  | AGPS_EVENT_SUBSCRIBE
  | AGPS_EVENT_UNSUBSCRIBE
  | AGPS_EVENT_GRANTED
  | AGPS_EVENT_RELEASED
  | AGPS_EVENT_DENIED
  deriving DecidableEq, Repr

/-- Notification types sent to subscribers, `AgpsNotificationType` of Agps.h lines 70-82. -/
inductive AgpsNotificationType where
  | AGPS_NOTIFICATION_TYPE_INVALID
  | AGPS_NOTIFICATION_TYPE_FOR_ALL_SUBSCRIBERS
  | AGPS_NOTIFICATION_TYPE_FOR_INACTIVE_SUBSCRIBERS
  | AGPS_NOTIFICATION_TYPE_FOR_ACTIVE_SUBSCRIBERS
  deriving DecidableEq, Repr

/-- Modelled from the spec: the enumeration `AGpsBearerType` is declared in
`gps_extended_c.h`, which is not among the sources. Only the four enumerators the
sources name (Agps.h line 162, AGnss.cpp lines 155-164) are listed. -/
inductive AGpsBearerType where
  | AGPS_APN_BEARER_INVALID
  | AGPS_APN_BEARER_IPV4
  | AGPS_APN_BEARER_IPV6
  | AGPS_APN_BEARER_IPV4V6
  deriving DecidableEq, Repr

/-- The AGPS type of a request (`AGpsExtType`), an integer code. -/
abbrev AGpsExtType := Int

/-- The APN type bit mask (`LocApnTypeMask`). -/
abbrev LocApnTypeMask := Nat

/-! ## Subscriber (Agps.h lines 89-120) -/

/-- One AGPS request received by a state machine: `class AgpsSubscriber`. -/
structure AgpsSubscriber where
  mConnHandle : Int
  mWaitForCloseComplete : Bool
  mIsInactive : Bool
  mApnTypeMask : LocApnTypeMask
  deriving DecidableEq, Repr

/-- `AgpsSubscriber::equals`: `return (mConnHandle == s->mConnHandle);` -/
def AgpsSubscriber.equals (self s : AgpsSubscriber) : Bool :=
  self.mConnHandle == s.mConnHandle

/-- `AgpsSubscriber::clone`: a new subscriber built from the four fields. -/
def AgpsSubscriber.clone (self : AgpsSubscriber) : AgpsSubscriber :=
  AgpsSubscriber.mk self.mConnHandle self.mWaitForCloseComplete self.mIsInactive
    self.mApnTypeMask

/-! ## State machine (Agps.h lines 122-234) -/

/-- The data members of `class AgpsStateMachine`. `mAgpsManager` is the address of the
owning manager; `mAPN` is the owned character buffer (`none` for `NULL`). -/
structure AgpsStateMachine where
  mAgpsManager : Nat
  mSubscriberList : List AgpsSubscriber
  mCurrentSubscriber : Option AgpsSubscriber
  mState : AgpsState
  mFrameworkStatusV4Cb : Option Nat
  mAgpsType : AGpsExtType
  mApnTypeMask : LocApnTypeMask
  mAPN : Option (List Nat)
  mAPNLen : Nat
  mBearer : AGpsBearerType
  deriving DecidableEq, Repr

/-- The constructor `AgpsStateMachine(AgpsManager*, AGpsExtType)` (Agps.h lines 157-162).
Its initialiser list does not mention `mApnTypeMask`, so that member starts with an
indeterminate value, here the parameter `uninitApnTypeMask`. -/
def newAgpsStateMachine (agpsManager : Nat) (agpsType : AGpsExtType)
    (uninitApnTypeMask : LocApnTypeMask) : AgpsStateMachine where
  mAgpsManager := agpsManager
  mSubscriberList := []
  mCurrentSubscriber := none
  mState := AgpsState.AGPS_STATE_RELEASED
  mFrameworkStatusV4Cb := none
  mAgpsType := agpsType
  mApnTypeMask := uninitApnTypeMask
  mAPN := none
  mAPNLen := 0
  mBearer := AGpsBearerType.AGPS_APN_BEARER_INVALID

/-- `getAPN`. -/
def AgpsStateMachine.getAPN (sm : AgpsStateMachine) : Option (List Nat) := sm.mAPN

/-- `getAPNLen`. -/
def AgpsStateMachine.getAPNLen (sm : AgpsStateMachine) : Nat := sm.mAPNLen

/-- `setBearer`. -/
def AgpsStateMachine.setBearer (sm : AgpsStateMachine) (bearer : AGpsBearerType) :
    AgpsStateMachine :=
  { sm with mBearer := bearer }

/-- `getApnTypeMask`. -/
def AgpsStateMachine.getApnTypeMask (sm : AgpsStateMachine) : LocApnTypeMask :=
  sm.mApnTypeMask

/-- `setApnTypeMask`. -/
def AgpsStateMachine.setApnTypeMask (sm : AgpsStateMachine) (apnTypeMask : LocApnTypeMask) :
    AgpsStateMachine :=
  { sm with mApnTypeMask := apnTypeMask }

/-- `getBearer`. -/
def AgpsStateMachine.getBearer (sm : AgpsStateMachine) : AGpsBearerType := sm.mBearer

/-- `setType`. -/
def AgpsStateMachine.setType (sm : AgpsStateMachine) (type : AGpsExtType) :
    AgpsStateMachine :=
  { sm with mAgpsType := type }

/-- `getType`. -/
def AgpsStateMachine.getType (sm : AgpsStateMachine) : AGpsExtType := sm.mAgpsType

/-- `setCurrentSubscriber`: `mCurrentSubscriber = subscriber;` with no test of the state. -/
def AgpsStateMachine.setCurrentSubscriber (sm : AgpsStateMachine)
    (subscriber : Option AgpsSubscriber) : AgpsStateMachine :=
  { sm with mCurrentSubscriber := subscriber }

/-- `registerFrameworkStatusCallback`. -/
def AgpsStateMachine.registerFrameworkStatusCallback (sm : AgpsStateMachine)
    (frameworkStatusV4Cb : Option Nat) : AgpsStateMachine :=
  { sm with mFrameworkStatusV4Cb := frameworkStatusV4Cb }

/-- A call of one of the setters that Agps.h defines inline. -/
inductive SetterCall where
  | setBearer (bearer : AGpsBearerType)
  | setApnTypeMask (apnTypeMask : LocApnTypeMask)
  | setType (type : AGpsExtType)
  | setCurrentSubscriber (subscriber : Option AgpsSubscriber)
  | registerFrameworkStatusCallback (cb : Option Nat)
  deriving DecidableEq, Repr

/-- The effect of one inline setter call on a state machine. -/
def applySetter (sm : AgpsStateMachine) : SetterCall → AgpsStateMachine
  | SetterCall.setBearer b => sm.setBearer b
  | SetterCall.setApnTypeMask m => sm.setApnTypeMask m
  | SetterCall.setType t => sm.setType t
  | SetterCall.setCurrentSubscriber s => sm.setCurrentSubscriber s
  | SetterCall.registerFrameworkStatusCallback cb => sm.registerFrameworkStatusCallback cb

/-- The effect of a sequence of inline setter calls, first call first. -/
def applySetters (sm : AgpsStateMachine) (calls : List SetterCall) : AgpsStateMachine :=
  calls.foldl applySetter sm

/-- The argument of the last `setCurrentSubscriber` call of a sequence, or `dflt` when the
sequence has none. -/
def lastCurrentSubscriber (dflt : Option AgpsSubscriber) :
    List SetterCall → Option AgpsSubscriber
  | [] => dflt
  | SetterCall.setCurrentSubscriber s :: rest => lastCurrentSubscriber s rest
  | _ :: rest => lastCurrentSubscriber dflt rest

/-- The invariant of the data model: the current subscriber is non-null only while the
state is `PENDING` or `RELEASING`. -/
def currentOnlyWhilePendingOrReleasing (sm : AgpsStateMachine) : Prop :=
  sm.mCurrentSubscriber ≠ none →
    sm.mState = AgpsState.AGPS_STATE_PENDING ∨ sm.mState = AgpsState.AGPS_STATE_RELEASING

/-! ## Manager (Agps.h lines 236-281) -/

/-- The data members of `class AgpsManager`. The two state machines are owned through
pointers that may be `NULL`. -/
structure AgpsManager where
  mAtlOpenStatusCb : Option Nat
  mAtlCloseStatusCb : Option Nat
  mAgnssNif : Option AgpsStateMachine
  mInternetNif : Option AgpsStateMachine
  deriving DecidableEq, Repr

/-- The constructor `AgpsManager()` (Agps.h lines 242-244): empty callbacks, no state
machine. -/
def newAgpsManager : AgpsManager where
  mAtlOpenStatusCb := none
  mAtlCloseStatusCb := none
  mAgnssNif := none
  mInternetNif := none

/-- `registerATLCallbacks` (Agps.h lines 247-252): both callbacks are assigned. -/
def AgpsManager.registerATLCallbacks (m : AgpsManager) (atlOpenStatusCb : Option Nat)
    (atlCloseStatusCb : Option Nat) : AgpsManager :=
  { m with mAtlOpenStatusCb := atlOpenStatusCb, mAtlCloseStatusCb := atlCloseStatusCb }

/-- `isRegistered` (Agps.h line 255):
`return nullptr != mAgnssNif || nullptr != mInternetNif;` -/
def AgpsManager.isRegistered (m : AgpsManager) : Bool :=
  m.mAgnssNif.isSome || m.mInternetNif.isSome

/-- At least one state machine (AGNSS or Internet) has been constructed. -/
def AgpsManager.hasStateMachine (m : AgpsManager) : Prop :=
  m.mAgnssNif ≠ none ∨ m.mInternetNif ≠ none

/-- The platform open and close callbacks have both been registered (are non-empty). -/
def AgpsManager.callbacksRegistered (m : AgpsManager) : Prop :=
  m.mAtlOpenStatusCb ≠ none ∧ m.mAtlCloseStatusCb ≠ none

/-! ## State-machine operations whose bodies are in Agps.cpp

Agps.h declares `setAPN`, `getSubscriber`, `processAgpsEvent`, `dropAllSubscribers`,
`deleteSubscriber`, `requestOrReleaseDataConn`, the five `processAgpsEvent*` methods,
`addSubscriber`, `notifyAllSubscribers`, `notifyEventToSubscriber`,
`anyActiveSubscribers`, `transitionState` and `AgpsManager::handleModemSSR`, but their
bodies are in Agps.cpp, which is not among the sources. They are modelled below from the
specification (sections 4.1, 4.2, 6 and 8), with the signatures that Agps.h declares.

`processAgpsEvent(AgpsEvent)` has no subscriber parameter: the subscriber an event is
about is the current subscriber (`mCurrentSubscriber`, "whose request this State Machine
is currently processing"). Where a transition needs it and it is null, the model gives no
result (`none`). -/

/-- Modelled from the spec: the outbound callbacks of section 6, as a record of one
invocation. `openRequest` and `closeRequest` are the open-request and close-request
callbacks towards the platform (what `requestOrReleaseDataConn` sends); `notify` is the
status notification `(connectionHandle, outcome, apnName, apnLength, bearerType,
requestType)` to one subscriber. The handle and the unused success-flag placeholder of
the open and close requests are not recorded: the spec does not say which subscriber's
handle they carry. -/
inductive AgpsAction where
  | openRequest (requestType : AGpsExtType) (apnTypeMask : LocApnTypeMask)
  | closeRequest
  | notify (connHandle : Int) (outcome : AgpsEvent) (apn : Option (List Nat))
      (apnLen : Nat) (bearer : AGpsBearerType) (requestType : AGpsExtType)
  deriving DecidableEq, Repr

/-- Is the action an open request? -/
def AgpsAction.isOpenRequest : AgpsAction → Bool
  | AgpsAction.openRequest _ _ => true
  | _ => false

/-- Is the action a close request? -/
def AgpsAction.isCloseRequest : AgpsAction → Bool
  | AgpsAction.closeRequest => true
  | _ => false

/-- Is the action a status notification to a subscriber? -/
def AgpsAction.isNotify : AgpsAction → Bool
  | AgpsAction.notify _ _ _ _ _ _ => true
  | _ => false

/-- Modelled from the spec: `setAPN(char* apn, unsigned int len)`, whose body is in
Agps.cpp. Section 5: the APN buffer "is replaced (old buffer released) rather than mutated
in place". -/
def AgpsStateMachine.setAPN (sm : AgpsStateMachine) (apn : Option (List Nat)) (len : Nat) :
    AgpsStateMachine :=
  { sm with mAPN := apn, mAPNLen := len }

/-- Modelled from the spec: `getSubscriber(int connHandle)`, whose body is in Agps.cpp:
"Fetch subscriber with specified handle", the first one in list order. -/
def AgpsStateMachine.getSubscriber (sm : AgpsStateMachine) (connHandle : Int) :
    Option AgpsSubscriber :=
  sm.mSubscriberList.find? (fun s => s.mConnHandle == connHandle)

/-- Modelled from the spec: `addSubscriber`, whose body is in Agps.cpp: "Clone the passed
in subscriber and add to the subscriber list if not already present"; section 3: a
subscriber is created when "no existing subscriber with that handle exists"; the
collection is ordered, "insertion order = arrival order", so the clone goes to the end. -/
def AgpsStateMachine.addSubscriber (sm : AgpsStateMachine) (subscriber : AgpsSubscriber) :
    AgpsStateMachine :=
  match sm.getSubscriber subscriber.mConnHandle with
  | some _ => sm
  | none => { sm with mSubscriberList := sm.mSubscriberList ++ [subscriber.clone] }

/-- Modelled from the spec: `deleteSubscriber`, whose body is in Agps.cpp: "Remove the
specified subscriber from list if present", where the same subscriber is one that
`equals` it. -/
def AgpsStateMachine.deleteSubscriber (sm : AgpsStateMachine) (subscriber : AgpsSubscriber) :
    AgpsStateMachine :=
  { sm with mSubscriberList := sm.mSubscriberList.filter (fun s => !(s.equals subscriber)) }

/-- Modelled from the spec: marking a subscriber of the list inactive (section 4.1: "it
is marked inactive and retained"); Agps.cpp is not among the sources. -/
def AgpsStateMachine.markInactive (sm : AgpsStateMachine) (subscriber : AgpsSubscriber) :
    AgpsStateMachine :=
  { sm with
    mSubscriberList :=
      sm.mSubscriberList.map
        (fun s => if s.equals subscriber then { s with mIsInactive := true } else s) }

/-- Modelled from the spec: `anyActiveSubscribers`, whose body is in Agps.cpp: "Do we have
any subscribers in active state", active meaning not marked inactive. -/
def AgpsStateMachine.anyActiveSubscribers (sm : AgpsStateMachine) : Bool :=
  sm.mSubscriberList.any (fun s => !s.mIsInactive)

/-- Modelled from the spec: is some subscriber of the list "waiting for close-complete"
(section 4.1, `ACQUIRED` + `UNSUBSCRIBE`); Agps.cpp is not among the sources. -/
def AgpsStateMachine.anyWaitingForCloseComplete (sm : AgpsStateMachine) : Bool :=
  sm.mSubscriberList.any (fun s => s.mWaitForCloseComplete)

/-- Modelled from the spec: `transitionState`, whose body is in Agps.cpp: the state
becomes `newState`. -/
def AgpsStateMachine.transitionState (sm : AgpsStateMachine) (newState : AgpsState) :
    AgpsStateMachine :=
  { sm with mState := newState }

/-- Modelled from the spec: `requestOrReleaseDataConn(bool request)`, whose body is in
Agps.cpp: one open request to the platform when `request` is true, one close request
otherwise (section 6). -/
def AgpsStateMachine.requestOrReleaseDataConn (sm : AgpsStateMachine) (request : Bool) :
    List AgpsAction :=
  if request then [AgpsAction.openRequest sm.mAgpsType sm.mApnTypeMask]
  else [AgpsAction.closeRequest]

/-- Modelled from the spec: the status notification of section 6 that a subscriber gets
for an outcome, with the APN, bearer and request type the state machine holds; Agps.cpp is
not among the sources. -/
def AgpsStateMachine.statusNotification (sm : AgpsStateMachine) (event : AgpsEvent)
    (subscriber : AgpsSubscriber) : AgpsAction :=
  AgpsAction.notify subscriber.mConnHandle event sm.mAPN sm.mAPNLen sm.mBearer sm.mAgpsType

/-- Modelled from the spec: `notifyEventToSubscriber(event, subscriber,
deleteSubscriberPostNotify)`, whose body is in Agps.cpp. The subscriber gets one status
notification; section 4.1: "After notifying, a subscriber is removed from the collection
unless it must still wait for close completion, in which case it is marked inactive and
retained", which applies when `deleteSubscriberPostNotify` is set. -/
def AgpsStateMachine.notifyEventToSubscriber (sm : AgpsStateMachine) (event : AgpsEvent)
    (subscriber : AgpsSubscriber) (deleteSubscriberPostNotify : Bool) :
    AgpsStateMachine × List AgpsAction :=
  (if deleteSubscriberPostNotify then
      (if subscriber.mWaitForCloseComplete then sm.markInactive subscriber
        else sm.deleteSubscriber subscriber)
    else sm,
   [sm.statusNotification event subscriber])

/-- Modelled from the spec: the subscribers a notification pass is for and the order in
which they are notified; Agps.cpp is not among the sources. Section 4.1: "three modes: all
subscribers, only subscribers marked inactive, only active subscribers", and the tie-break
rule "active subscribers are notified first, preserving request arrival order within each
group". -/
def notificationTargets (subscribers : List AgpsSubscriber) :
    AgpsNotificationType → List AgpsSubscriber
  | AgpsNotificationType.AGPS_NOTIFICATION_TYPE_FOR_ALL_SUBSCRIBERS =>
      subscribers.filter (fun s => !s.mIsInactive) ++ subscribers.filter (fun s => s.mIsInactive)
  | AgpsNotificationType.AGPS_NOTIFICATION_TYPE_FOR_INACTIVE_SUBSCRIBERS =>
      subscribers.filter (fun s => s.mIsInactive)
  | AgpsNotificationType.AGPS_NOTIFICATION_TYPE_FOR_ACTIVE_SUBSCRIBERS =>
      subscribers.filter (fun s => !s.mIsInactive)
  | AgpsNotificationType.AGPS_NOTIFICATION_TYPE_INVALID => []

/-- Modelled from the spec: one notification pass over the given subscribers, in the
order given, each through `notifyEventToSubscriber`; Agps.cpp is not among the sources. -/
def AgpsStateMachine.notifyEach (event : AgpsEvent) (deleteSubscriberPostNotify : Bool) :
    AgpsStateMachine → List AgpsSubscriber → AgpsStateMachine × List AgpsAction
  | sm, [] => (sm, [])
  | sm, s :: rest =>
      ((AgpsStateMachine.notifyEach event deleteSubscriberPostNotify
          (sm.notifyEventToSubscriber event s deleteSubscriberPostNotify).1 rest).1,
       (sm.notifyEventToSubscriber event s deleteSubscriberPostNotify).2
         ++ (AgpsStateMachine.notifyEach event deleteSubscriberPostNotify
          (sm.notifyEventToSubscriber event s deleteSubscriberPostNotify).1 rest).2)

/-- Modelled from the spec: `notifyAllSubscribers(event, deleteSubscriberPostNotify,
notificationType)`, whose body is in Agps.cpp: "a single physical grant/deny/release
event may notify multiple subscribers at once", those selected by the notification type. -/
def AgpsStateMachine.notifyAllSubscribers (sm : AgpsStateMachine) (event : AgpsEvent)
    (deleteSubscriberPostNotify : Bool) (notificationType : AgpsNotificationType) :
    AgpsStateMachine × List AgpsAction :=
  AgpsStateMachine.notifyEach event deleteSubscriberPostNotify sm
    (notificationTargets sm.mSubscriberList notificationType)

/-- Modelled from the spec: `processAgpsEventSubscribe`, whose body is in Agps.cpp.
Section 4.1:
* "`RELEASED` + `SUBSCRIBE`: add subscriber; if it is the first subscriber, emit an open
  request to the platform and transition to `PENDING`";
* "`PENDING` + `SUBSCRIBE`: add subscriber, no new platform action";
* "`ACQUIRED` + `SUBSCRIBE`: immediately notify the new subscriber of the already-granted
  status (no platform round-trip); add to collection";
* "`RELEASING` + `SUBSCRIBE`: queue the new subscriber".
The subscriber is the first one when the list was empty before it was added. -/
def AgpsStateMachine.processAgpsEventSubscribe (sm : AgpsStateMachine) :
    Option (AgpsStateMachine × List AgpsAction) :=
  match sm.mState with
  | AgpsState.AGPS_STATE_RELEASED =>
      sm.mCurrentSubscriber.map (fun s =>
        if sm.mSubscriberList.isEmpty then
          ((sm.addSubscriber s).transitionState AgpsState.AGPS_STATE_PENDING,
            sm.requestOrReleaseDataConn true)
        else (sm.addSubscriber s, []))
  | AgpsState.AGPS_STATE_PENDING =>
      sm.mCurrentSubscriber.map (fun s => (sm.addSubscriber s, []))
  | AgpsState.AGPS_STATE_ACQUIRED =>
      sm.mCurrentSubscriber.map (fun s =>
        ((sm.notifyEventToSubscriber AgpsEvent.AGPS_EVENT_GRANTED s false).1.addSubscriber s,
          (sm.notifyEventToSubscriber AgpsEvent.AGPS_EVENT_GRANTED s false).2))
  | AgpsState.AGPS_STATE_RELEASING =>
      sm.mCurrentSubscriber.map (fun s => (sm.addSubscriber s, []))
  | AgpsState.AGPS_STATE_INVALID => some (sm, [])

/-- Modelled from the spec: `processAgpsEventUnsubscribe`, whose body is in Agps.cpp.
Section 4.1:
* "`PENDING` + `UNSUBSCRIBE`: remove the subscriber; if no subscribers remain, remain
  `PENDING` until the platform answers";
* "`ACQUIRED` + `UNSUBSCRIBE`: remove subscriber; if it is the last active (non-inactive)
  subscriber and no one is waiting for close-complete, emit a close request to the
  platform and transition to `RELEASING`; otherwise remain `ACQUIRED`";
* section 8: "`UNSUBSCRIBE` for a handle that was never subscribed is a no-op with no state
  change";
* any other state: no-op. -/
def AgpsStateMachine.processAgpsEventUnsubscribe (sm : AgpsStateMachine) :
    Option (AgpsStateMachine × List AgpsAction) :=
  match sm.mState with
  | AgpsState.AGPS_STATE_PENDING =>
      sm.mCurrentSubscriber.map (fun s => (sm.deleteSubscriber s, []))
  | AgpsState.AGPS_STATE_ACQUIRED =>
      sm.mCurrentSubscriber.map (fun s =>
        match sm.getSubscriber s.mConnHandle with
        | none => (sm, [])
        | some _ =>
          if !(sm.deleteSubscriber s).anyActiveSubscribers
              && !(sm.deleteSubscriber s).anyWaitingForCloseComplete then
            ((sm.deleteSubscriber s).transitionState AgpsState.AGPS_STATE_RELEASING,
              (sm.deleteSubscriber s).requestOrReleaseDataConn false)
          else ((sm.deleteSubscriber s), []))
  | _ => some (sm, [])

/-- Modelled from the spec: what a state machine in `RELEASING` does when the platform
answers; Agps.cpp is not among the sources. Section 4.1: "`RELEASING` +
`GRANTED`/`RELEASED`: notify any subscribers still waiting for close completion; clear
collection; transition to `RELEASED`", and "`RELEASING` + `SUBSCRIBE`: queue the new
subscriber; once close completes, immediately re-open (re-enter `PENDING`) rather than
staying idle". The subscribers waiting for the close are the inactive ones; the queued
ones are the active ones, which are kept when the machine re-opens. -/
def AgpsStateMachine.closeCompleted (sm : AgpsStateMachine) :
    AgpsStateMachine × List AgpsAction :=
  if sm.anyActiveSubscribers then
    (({ sm with mSubscriberList := sm.mSubscriberList.filter (fun s => !s.mIsInactive) }
        ).transitionState AgpsState.AGPS_STATE_PENDING,
      (sm.notifyAllSubscribers AgpsEvent.AGPS_EVENT_RELEASED true
          AgpsNotificationType.AGPS_NOTIFICATION_TYPE_FOR_INACTIVE_SUBSCRIBERS).2
        ++ sm.requestOrReleaseDataConn true)
  else
    (({ sm with mSubscriberList := [] }).transitionState AgpsState.AGPS_STATE_RELEASED,
      (sm.notifyAllSubscribers AgpsEvent.AGPS_EVENT_RELEASED true
          AgpsNotificationType.AGPS_NOTIFICATION_TYPE_FOR_INACTIVE_SUBSCRIBERS).2)

/-- Modelled from the spec: `processAgpsEventGranted`, whose body is in Agps.cpp. Section
4.1: "`PENDING` + `GRANTED`: record bearer/APN parameters from the grant; notify all
current subscribers of success; transition to `ACQUIRED`" (the parameters are recorded by
`setAPN` and `setBearer` before the event is processed, `processAgpsEvent` having no
such parameter, and the subscribers stay in the list); "`PENDING` + `UNSUBSCRIBE`: [...]
if no subscribers remain, remain `PENDING` until the platform answers, then immediately
release"; `RELEASING` + `GRANTED` as in `closeCompleted`; any other state: no-op. -/
def AgpsStateMachine.processAgpsEventGranted (sm : AgpsStateMachine) :
    Option (AgpsStateMachine × List AgpsAction) :=
  match sm.mState with
  | AgpsState.AGPS_STATE_PENDING =>
      if sm.mSubscriberList.isEmpty then
        some (sm.transitionState AgpsState.AGPS_STATE_RELEASING,
          sm.requestOrReleaseDataConn false)
      else
        some ((sm.notifyAllSubscribers AgpsEvent.AGPS_EVENT_GRANTED false
                AgpsNotificationType.AGPS_NOTIFICATION_TYPE_FOR_ALL_SUBSCRIBERS
              ).1.transitionState AgpsState.AGPS_STATE_ACQUIRED,
          (sm.notifyAllSubscribers AgpsEvent.AGPS_EVENT_GRANTED false
                AgpsNotificationType.AGPS_NOTIFICATION_TYPE_FOR_ALL_SUBSCRIBERS).2)
  | AgpsState.AGPS_STATE_RELEASING => some sm.closeCompleted
  | _ => some (sm, [])

/-- Modelled from the spec: `processAgpsEventReleased`, whose body is in Agps.cpp.
Section 4.1 lists `RELEASED` only for a state machine in `RELEASING` (see
`closeCompleted`); any other state: no-op. -/
def AgpsStateMachine.processAgpsEventReleased (sm : AgpsStateMachine) :
    Option (AgpsStateMachine × List AgpsAction) :=
  match sm.mState with
  | AgpsState.AGPS_STATE_RELEASING => some sm.closeCompleted
  | _ => some (sm, [])

/-- Modelled from the spec: `processAgpsEventDenied`, whose body is in Agps.cpp. Section
4.1: "`PENDING` + `DENIED`: notify all current subscribers of failure; clear subscriber
collection; transition to `RELEASED`"; any other state: no-op. -/
def AgpsStateMachine.processAgpsEventDenied (sm : AgpsStateMachine) :
    Option (AgpsStateMachine × List AgpsAction) :=
  match sm.mState with
  | AgpsState.AGPS_STATE_PENDING =>
      some (({ sm with mSubscriberList := [] }).transitionState AgpsState.AGPS_STATE_RELEASED,
        (sm.notifyAllSubscribers AgpsEvent.AGPS_EVENT_DENIED true
            AgpsNotificationType.AGPS_NOTIFICATION_TYPE_FOR_ALL_SUBSCRIBERS).2)
  | _ => some (sm, [])

/-- Modelled from the spec: `processAgpsEvent(AgpsEvent event)`, whose body is in
Agps.cpp: the transition table of section 4.1, one method for each event; "Any other
combination is a no-op". The result is the new state machine and the callbacks invoked,
or `none` when the transition needs the current subscriber and there is none. -/
def AgpsStateMachine.processAgpsEvent (sm : AgpsStateMachine) (event : AgpsEvent) :
    Option (AgpsStateMachine × List AgpsAction) :=
  match event with
  | AgpsEvent.AGPS_EVENT_SUBSCRIBE => sm.processAgpsEventSubscribe
  | AgpsEvent.AGPS_EVENT_UNSUBSCRIBE => sm.processAgpsEventUnsubscribe
  | AgpsEvent.AGPS_EVENT_GRANTED => sm.processAgpsEventGranted
  | AgpsEvent.AGPS_EVENT_RELEASED => sm.processAgpsEventReleased
  | AgpsEvent.AGPS_EVENT_DENIED => sm.processAgpsEventDenied
  | AgpsEvent.AGPS_EVENT_INVALID => some (sm, [])

/-- Modelled from the spec: `dropAllSubscribers`, whose body is in Agps.cpp. Section 4.1:
"every subscriber in every state machine is dropped without platform notification [...]
and each state machine resets to `RELEASED`". -/
def AgpsStateMachine.dropAllSubscribers (sm : AgpsStateMachine) : AgpsStateMachine :=
  { sm with mSubscriberList := [], mState := AgpsState.AGPS_STATE_RELEASED }

/-- Modelled from the spec: `AgpsManager::handleModemSSR`, whose body is in Agps.cpp.
Section 4.2: "broadcasts the drop-all reset to every owned state machine". The result is
the new manager and the callbacks invoked. -/
def AgpsManager.handleModemSSR (m : AgpsManager) : AgpsManager × List AgpsAction :=
  ({ m with mAgnssNif := m.mAgnssNif.map AgpsStateMachine.dropAllSubscribers,
            mInternetNif := m.mInternetNif.map AgpsStateMachine.dropAllSubscribers }, [])

/-- The transition table of section 4.1 of the spec: the (state, event) pairs it lists. -/
def transitionTableLists : AgpsState → AgpsEvent → Bool
  | AgpsState.AGPS_STATE_RELEASED, AgpsEvent.AGPS_EVENT_SUBSCRIBE => true
  | AgpsState.AGPS_STATE_PENDING, AgpsEvent.AGPS_EVENT_SUBSCRIBE => true
  | AgpsState.AGPS_STATE_PENDING, AgpsEvent.AGPS_EVENT_UNSUBSCRIBE => true
  | AgpsState.AGPS_STATE_PENDING, AgpsEvent.AGPS_EVENT_GRANTED => true
  | AgpsState.AGPS_STATE_PENDING, AgpsEvent.AGPS_EVENT_DENIED => true
  | AgpsState.AGPS_STATE_ACQUIRED, AgpsEvent.AGPS_EVENT_SUBSCRIBE => true
  | AgpsState.AGPS_STATE_ACQUIRED, AgpsEvent.AGPS_EVENT_UNSUBSCRIBE => true
  | AgpsState.AGPS_STATE_RELEASING, AgpsEvent.AGPS_EVENT_GRANTED => true
  | AgpsState.AGPS_STATE_RELEASING, AgpsEvent.AGPS_EVENT_RELEASED => true
  | AgpsState.AGPS_STATE_RELEASING, AgpsEvent.AGPS_EVENT_SUBSCRIBE => true
  | _, _ => false

/-- A call of a public operation of a state machine. -/
inductive Op where
  | setter (call : SetterCall)
  | setAPN (apn : Option (List Nat)) (len : Nat)
  | processAgpsEvent (event : AgpsEvent)
  | dropAllSubscribers
  deriving DecidableEq, Repr

/-- The effect of one public operation: the new state machine and the callbacks invoked. -/
def applyOp (sm : AgpsStateMachine) : Op → Option (AgpsStateMachine × List AgpsAction)
  | Op.setter call => some (applySetter sm call, [])
  | Op.setAPN apn len => some (sm.setAPN apn len, [])
  | Op.processAgpsEvent event => sm.processAgpsEvent event
  | Op.dropAllSubscribers => some (sm.dropAllSubscribers, [])

/-- The effect of a sequence of public operations, first operation first; the callbacks
invoked are collected in order. -/
def runOps : AgpsStateMachine → List Op → Option (AgpsStateMachine × List AgpsAction)
  | sm, [] => some (sm, [])
  | sm, op :: rest =>
      match applyOp sm op with
      | none => none
      | some r1 =>
        match runOps r1.1 rest with
        | none => none
        | some r2 => some (r2.1, r1.2 ++ r2.2)

/-- A `SUBSCRIBE` or `UNSUBSCRIBE` event together with the subscriber it is about. -/
inductive Request where
  | subscribe (s : AgpsSubscriber)
  | unsubscribe (s : AgpsSubscriber)
  deriving DecidableEq, Repr

/-- The operations by which a request reaches the state machine: the subscriber is made
the current subscriber and the event is processed. -/
def Request.ops : Request → List Op
  | Request.subscribe s =>
      [Op.setter (SetterCall.setCurrentSubscriber (some s)),
       Op.processAgpsEvent AgpsEvent.AGPS_EVENT_SUBSCRIBE]
  | Request.unsubscribe s =>
      [Op.setter (SetterCall.setCurrentSubscriber (some s)),
       Op.processAgpsEvent AgpsEvent.AGPS_EVENT_UNSUBSCRIBE]

/-- The operations of a sequence of requests. -/
def requestOps : List Request → List Op
  | [] => []
  | r :: rest => r.ops ++ requestOps rest

/-- Is the request a `SUBSCRIBE`? -/
def Request.isSubscribe : Request → Bool
  | Request.subscribe _ => true
  | Request.unsubscribe _ => false

/-- The connection handles of the subscriber list, in list order. -/
def AgpsStateMachine.handles (sm : AgpsStateMachine) : List Int :=
  sm.mSubscriberList.map (fun s => s.mConnHandle)

/-- The claim about `PENDING` + `GRANTED`: every subscriber of the list is notified of
`GRANTED` once, in list (insertion) order, and the state becomes `ACQUIRED`. -/
def grantedNotifiesInListOrder (sm : AgpsStateMachine) : Prop :=
  ∃ sm' : AgpsStateMachine,
    sm.processAgpsEvent AgpsEvent.AGPS_EVENT_GRANTED
        = some (sm', sm.mSubscriberList.map (sm.statusNotification AgpsEvent.AGPS_EVENT_GRANTED))
      ∧ sm'.mState = AgpsState.AGPS_STATE_ACQUIRED

/-- A state machine in `PENDING` whose list holds subscriber 1, marked inactive, before
subscriber 2, active: the state after `SUBSCRIBE` of 1 and then of 2 on a new machine. -/
def pendingInactiveThenActive : AgpsStateMachine where
  mAgpsManager := 0
  mSubscriberList := [AgpsSubscriber.mk 1 true true 0, AgpsSubscriber.mk 2 false false 0]
  mCurrentSubscriber := some (AgpsSubscriber.mk 2 false false 0)
  mState := AgpsState.AGPS_STATE_PENDING
  mFrameworkStatusV4Cb := none
  mAgpsType := 1
  mApnTypeMask := 0
  mAPN := none
  mAPNLen := 0
  mBearer := AGpsBearerType.AGPS_APN_BEARER_INVALID

/-- A state machine in `ACQUIRED` with the active subscribers 1 and 2: the state after
`SUBSCRIBE` of 1 (twice) and of 2 and then `GRANTED` on a new machine. -/
def acquiredOneThenTwo : AgpsStateMachine where
  mAgpsManager := 0
  mSubscriberList := [AgpsSubscriber.mk 1 false false 0, AgpsSubscriber.mk 2 false false 0]
  mCurrentSubscriber := some (AgpsSubscriber.mk 2 false false 0)
  mState := AgpsState.AGPS_STATE_ACQUIRED
  mFrameworkStatusV4Cb := none
  mAgpsType := 1
  mApnTypeMask := 0
  mAPN := none
  mAPNLen := 0
  mBearer := AGpsBearerType.AGPS_APN_BEARER_INVALID

/-! ## AGnss (android/1.0/AGnss.cpp)

Conventions: an `hidl_string` is the list of its bytes; an `sp<...>` callback interface
is `Option Nat` (`none` for `nullptr`); what a method forwards to the GNSS interface or
delivers to the framework callback is returned as a list of the calls made, in order. -/

/-- The AGPS type `LOC_AGPS_TYPE_ANY`, value 0 (Agps.h lines 142-146). -/
def LOC_AGPS_TYPE_ANY : AGpsExtType := 0

/-- The AGPS type `LOC_AGPS_TYPE_SUPL`, value 1 (Agps.h lines 142-146). -/
def LOC_AGPS_TYPE_SUPL : AGpsExtType := 1

/-- The AGPS type `LOC_AGPS_TYPE_WWAN_ANY`, value 3 (Agps.h lines 142-146). -/
def LOC_AGPS_TYPE_WWAN_ANY : AGpsExtType := 3

/-- The AGPS type `LOC_AGPS_TYPE_SUPL_ES`, value 5 (Agps.h lines 142-146). -/
def LOC_AGPS_TYPE_SUPL_ES : AGpsExtType := 5

/-- Modelled from the spec: the enumeration `IAGnss::ApnIpType` is declared in the HIDL
interface, which is not among the sources ("IP-type enumeration
(IPv4/IPv6/IPv4v6/unspecified)"). The three enumerators that AGnss.cpp names are listed;
`other raw` is any other value of the underlying type (unspecified, invalid, unknown). -/
inductive ApnIpType where
  | IPV4
  | IPV6
  | IPV4V6
  | other (raw : Nat)
  deriving DecidableEq, Repr

/-- Modelled from the spec: the status values `LocAGpsStatusValue` are macros of
`gps_extended_c.h`, which is not among the sources. The five values that AGnss.cpp names
are listed; `other raw` is any other value of the underlying type. -/
inductive LocAGpsStatusValue where
  | LOC_GPS_REQUEST_AGPS_DATA_CONN
  | LOC_GPS_RELEASE_AGPS_DATA_CONN
  | LOC_GPS_AGPS_DATA_CONNECTED
  | LOC_GPS_AGPS_DATA_CONN_DONE
  | LOC_GPS_AGPS_DATA_CONN_FAILED
  | other (raw : Nat)
  deriving DecidableEq, Repr

/-- The fields of `AGnssExtStatusIpV4` that AGnss.cpp reads. -/
structure AGnssExtStatusIpV4 where
  type : AGpsExtType
  status : LocAGpsStatusValue
  ipV4Addr : Nat
  deriving DecidableEq, Repr

/-- The enumerators of `IAGnssCallback::AGnssType` that AGnss.cpp names. -/
inductive AGnssType where
  | TYPE_SUPL
  | TYPE_C2K
  deriving DecidableEq, Repr

/-- The enumerators of `IAGnssCallback::AGnssStatusValue` that AGnss.cpp names. -/
inductive AGnssStatusValue where
  | REQUEST_AGNSS_DATA_CONN
  | RELEASE_AGNSS_DATA_CONN
  | AGNSS_DATA_CONNECTED
  | AGNSS_DATA_CONN_DONE
  | AGNSS_DATA_CONN_FAILED
  deriving DecidableEq, Repr

/-- The status `IAGnssCallback::AGnssStatusIpV4` handed to the framework callback. -/
structure AGnssStatusIpV4 where
  type : AGnssType
  status : AGnssStatusValue
  ipV4Addr : Nat
  deriving DecidableEq, Repr

/-- The part of `class Gnss` that the sources use: what `getGnssInterface()` returns
(`none` for `nullptr`). -/
structure Gnss where
  getGnssInterface : Option Nat
  deriving DecidableEq, Repr

/-- The data members of `class AGnss`: the `Gnss` object (`none` for `nullptr`) and the
framework callback interface. -/
structure AGnss where
  mGnss : Option Gnss
  mAGnssCbIface : Option Nat
  deriving DecidableEq, Repr

/-- The test `mGnss == nullptr || mGnss->getGnssInterface() == nullptr` that opens the
methods of AGnss.cpp. -/
def AGnss.nullGnssInterface (self : AGnss) : Bool :=
  match self.mGnss with
  | none => true
  | some gnss => gnss.getGnssInterface.isNone

/-- A call `agpsDataConnOpen(agpsType, apnName, apnLen, ipType)` on the GNSS interface. -/
structure AgpsDataConnOpenCall where
  agpsType : AGpsExtType
  apnName : List Nat
  apnLen : Nat
  ipType : AGpsBearerType
  deriving DecidableEq, Repr

/-- The `switch (apnIpType)` of `AGnss::dataConnOpen` (AGnss.cpp lines 152-166). -/
def AGnss.dataConnOpen_bearerType : ApnIpType → AGpsBearerType
  | ApnIpType.IPV4 => AGpsBearerType.AGPS_APN_BEARER_IPV4
  | ApnIpType.IPV6 => AGpsBearerType.AGPS_APN_BEARER_IPV6
  | ApnIpType.IPV4V6 => AGpsBearerType.AGPS_APN_BEARER_IPV4V6
  | _ => AGpsBearerType.AGPS_APN_BEARER_IPV4

/-- `AGnss::dataConnOpen` (AGnss.cpp lines 136-171): the value returned and the calls
forwarded to the GNSS interface. -/
def AGnss.dataConnOpen (self : AGnss) (apn : List Nat) (apnIpType : ApnIpType) :
    Bool × List AgpsDataConnOpenCall :=
  if self.nullGnssInterface then (false, [])
  else if apn.isEmpty then (false, [])
  else
    (true,
      [AgpsDataConnOpenCall.mk LOC_AGPS_TYPE_SUPL apn apn.length
        (AGnss.dataConnOpen_bearerType apnIpType)])

/-- `AGnss::statusIpV4Cb` (AGnss.cpp lines 49-94): the statuses delivered to the framework
callback `mAGnssCbIface`, each with the callback it went to. The macro
`LOC_AGPS_TYPE_C2K` is defined in `gps_extended_c.h`, which is not among the sources; its
value is the parameter `locAgpsTypeC2K`. -/
def AGnss.statusIpV4Cb (locAgpsTypeC2K : AGpsExtType) (self : AGnss)
    (status : AGnssExtStatusIpV4) : List (Nat × AGnssStatusIpV4) :=
  match (if status.type = LOC_AGPS_TYPE_SUPL then some AGnssType.TYPE_SUPL
          else if status.type = locAgpsTypeC2K then some AGnssType.TYPE_C2K
          else none) with
  | none => []
  | some stType =>
    match (match status.status with
            | LocAGpsStatusValue.LOC_GPS_REQUEST_AGPS_DATA_CONN =>
                some AGnssStatusValue.REQUEST_AGNSS_DATA_CONN
            | LocAGpsStatusValue.LOC_GPS_RELEASE_AGPS_DATA_CONN =>
                some AGnssStatusValue.RELEASE_AGNSS_DATA_CONN
            | LocAGpsStatusValue.LOC_GPS_AGPS_DATA_CONNECTED =>
                some AGnssStatusValue.AGNSS_DATA_CONNECTED
            | LocAGpsStatusValue.LOC_GPS_AGPS_DATA_CONN_DONE =>
                some AGnssStatusValue.AGNSS_DATA_CONN_DONE
            | LocAGpsStatusValue.LOC_GPS_AGPS_DATA_CONN_FAILED =>
                some AGnssStatusValue.AGNSS_DATA_CONN_FAILED
            | LocAGpsStatusValue.other _ => none) with
    | none => []
    | some stStatus =>
      match self.mAGnssCbIface with
      | some cb => [(cb, AGnssStatusIpV4.mk stType stStatus status.ipV4Addr)]
      | none => []

/-- The type of the framework status that corresponds to an AGPS type. -/
def AGnssType.correspondsTo (locAgpsTypeC2K : AGpsExtType) :
    AGnssType → AGpsExtType → Prop
  | AGnssType.TYPE_SUPL, t => t = LOC_AGPS_TYPE_SUPL
  | AGnssType.TYPE_C2K, t => t = locAgpsTypeC2K

/-- The framework status value that corresponds to a status value of the location
engine. -/
def AGnssStatusValue.correspondsTo : AGnssStatusValue → LocAGpsStatusValue → Prop
  | AGnssStatusValue.REQUEST_AGNSS_DATA_CONN, v =>
      v = LocAGpsStatusValue.LOC_GPS_REQUEST_AGPS_DATA_CONN
  | AGnssStatusValue.RELEASE_AGNSS_DATA_CONN, v =>
      v = LocAGpsStatusValue.LOC_GPS_RELEASE_AGPS_DATA_CONN
  | AGnssStatusValue.AGNSS_DATA_CONNECTED, v =>
      v = LocAGpsStatusValue.LOC_GPS_AGPS_DATA_CONNECTED
  | AGnssStatusValue.AGNSS_DATA_CONN_DONE, v =>
      v = LocAGpsStatusValue.LOC_GPS_AGPS_DATA_CONN_DONE
  | AGnssStatusValue.AGNSS_DATA_CONN_FAILED, v =>
      v = LocAGpsStatusValue.LOC_GPS_AGPS_DATA_CONN_FAILED

/-- Is the status value one of `REQUEST`, `RELEASE`, `CONNECTED`, `CONN_DONE`,
`CONN_FAILED`? -/
def LocAGpsStatusValue.isNamed : LocAGpsStatusValue → Bool
  | LocAGpsStatusValue.other _ => false
  | _ => true

/-- The static back-pointer `spAGnss` of AGnss.cpp (line 33) together with the `AGnss`
instances that are alive, oldest first. Instances are identified by a number (their
address); the list of alive instances is not a variable of the program, it records what the
property about `spAGnss` speaks of. -/
structure AGnssStatics where
  spAGnss : Option Nat
  alive : List Nat
  deriving DecidableEq, Repr

/-- The program start: `static AGnss* spAGnss = nullptr;` and no instance. -/
def AGnssStatics.start : AGnssStatics where
  spAGnss := none
  alive := []

/-- The constructor `AGnss::AGnss` (AGnss.cpp lines 35-37): `spAGnss = this;` -/
def AGnssStatics.construct (w : AGnssStatics) (obj : Nat) : AGnssStatics where
  spAGnss := some obj
  alive := w.alive ++ [obj]

/-- The destructor `AGnss::~AGnss` (AGnss.cpp lines 39-41): `spAGnss = nullptr;` whatever
instance is destroyed. -/
def AGnssStatics.destroy (w : AGnssStatics) (obj : Nat) : AGnssStatics where
  spAGnss := none
  alive := w.alive.filter (fun x => x != obj)

/-- The construction or the destruction of an `AGnss` instance. -/
inductive AGnssLifecycle where
  | construct (obj : Nat)
  | destroy (obj : Nat)
  deriving DecidableEq, Repr

/-- The effect of one construction or destruction. -/
def AGnssStatics.step (w : AGnssStatics) : AGnssLifecycle → AGnssStatics
  | AGnssLifecycle.construct obj => w.construct obj
  | AGnssLifecycle.destroy obj => w.destroy obj

/-- The effect of a sequence of constructions and destructions, first one first. -/
def AGnssStatics.run (w : AGnssStatics) (ops : List AGnssLifecycle) : AGnssStatics :=
  ops.foldl AGnssStatics.step w

/-- `AGnss::agnssStatusIpV4Cb` (AGnss.cpp lines 43-47): the instance whose `statusIpV4Cb`
is called and the status passed to it, or `none` when `spAGnss` is null. -/
def AGnssStatics.agnssStatusIpV4Cb (w : AGnssStatics) (status : AGnssExtStatusIpV4) :
    Option (Nat × AGnssExtStatusIpV4) :=
  match w.spAGnss with
  | some obj => some (obj, status)
  | none => none

/-- The property claimed of `spAGnss`: it refers to the most recently constructed instance
that is still alive, and is null only when no instance is alive. -/
def AGnssStatics.pointsToLastAlive (w : AGnssStatics) : Prop :=
  w.spAGnss = w.alive.getLast?

/-- A sequence of constructions and destructions in which at most one instance is alive
at a time: an instance is constructed only when none is alive, and only an alive instance
is destroyed. -/
def AGnssStatics.oneAtATime : AGnssStatics → List AGnssLifecycle → Bool
  | _, [] => true
  | w, AGnssLifecycle.construct obj :: rest =>
      w.alive.isEmpty && AGnssStatics.oneAtATime (w.construct obj) rest
  | w, AGnssLifecycle.destroy obj :: rest =>
      w.alive.contains obj && AGnssStatics.oneAtATime (w.destroy obj) rest

/-- The pointer that the last operation of a sequence leaves in `spAGnss`: the instance
when it is a construction, null when it is a destruction, `dflt` for the empty sequence. -/
def AGnssLifecycle.lastPointer (dflt : Option Nat) : List AGnssLifecycle → Option Nat
  | [] => dflt
  | AGnssLifecycle.construct obj :: rest => AGnssLifecycle.lastPointer (some obj) rest
  | AGnssLifecycle.destroy _ :: rest => AGnssLifecycle.lastPointer none rest

/-! ## GnssMeasurement (android/1.1/GnssMeasurement.cpp) -/

/-- The values of `IGnssMeasurement::GnssMeasurementStatus`; GnssMeasurement.cpp names
`ERROR_ALREADY_INIT` and `ERROR_GENERIC`, `SUCCESS` is the remaining value of the HIDL
enumeration. -/
inductive GnssMeasurementStatus where
  | SUCCESS
  | ERROR_ALREADY_INIT
  | ERROR_GENERIC
  deriving DecidableEq, Repr

/-- The power modes `GNSS_POWER_MODE_M1` and `GNSS_POWER_MODE_M2` that `setCallback_1_1`
chooses between. -/
inductive GnssPowerMode where
  | GNSS_POWER_MODE_M1
  | GNSS_POWER_MODE_M2
  deriving DecidableEq, Repr

/-- The data members of `class GnssMeasurement` that the two `setCallback` methods read and
write: the API client (`none` for `nullptr`) and the two callback slots. -/
structure GnssMeasurement where
  mApi : Option Nat
  mGnssMeasurementCbIface : Option Nat
  mGnssMeasurementCbIface_1_1 : Option Nat
  deriving DecidableEq, Repr

/-- `GnssMeasurement::setCallback` (GnssMeasurement.cpp lines 56-80): the status returned
and the object afterwards. `MeasurementAPIClient` is not among the sources: what
`mApi->measurementSetCallback(callback)` answers is the parameter
`measurementSetCallback`. -/
def GnssMeasurement.setCallback (measurementSetCallback : Nat → GnssMeasurementStatus)
    (self : GnssMeasurement) (callback : Option Nat) :
    GnssMeasurementStatus × GnssMeasurement :=
  if self.mGnssMeasurementCbIface ≠ none then
    (GnssMeasurementStatus.ERROR_ALREADY_INIT, self)
  else
    match callback with
    | none => (GnssMeasurementStatus.ERROR_GENERIC, self)
    | some cb =>
      if self.mApi = none then (GnssMeasurementStatus.ERROR_GENERIC, self)
      else
        (measurementSetCallback cb, { self with mGnssMeasurementCbIface := some cb })

/-- `GnssMeasurement::setCallback_1_1` (GnssMeasurement.cpp lines 102-128): the status
returned and the object afterwards. What `mApi->measurementSetCallback_1_1(callback,
powerMode)` answers is the parameter `measurementSetCallback_1_1`. -/
def GnssMeasurement.setCallback_1_1
    (measurementSetCallback_1_1 : Nat → GnssPowerMode → GnssMeasurementStatus)
    (self : GnssMeasurement) (callback : Option Nat) (enableFullTracking : Bool) :
    GnssMeasurementStatus × GnssMeasurement :=
  if self.mGnssMeasurementCbIface_1_1 ≠ none then
    (GnssMeasurementStatus.ERROR_ALREADY_INIT, self)
  else
    match callback with
    | none => (GnssMeasurementStatus.ERROR_GENERIC, self)
    | some cb =>
      if self.mApi = none then (GnssMeasurementStatus.ERROR_GENERIC, self)
      else
        (measurementSetCallback_1_1 cb
            (if enableFullTracking then GnssPowerMode.GNSS_POWER_MODE_M1
              else GnssPowerMode.GNSS_POWER_MODE_M2),
          { self with mGnssMeasurementCbIface_1_1 := some cb })

/-! ## GnssDebug (android/1.1/GnssDebug.cpp)

The `float` and `double` values of the debug report are taken as exact numbers (`ℚ`); the
code only copies and compares them, so no rounding takes place on the fields modelled. -/

/-- `GNSS_DEBUG_UNKNOWN_HORIZONTAL_ACCURACY_METERS` (GnssDebug.cpp line 33). -/
def GNSS_DEBUG_UNKNOWN_HORIZONTAL_ACCURACY_METERS : ℚ := 20000000

/-- `GNSS_DEBUG_UNKNOWN_VERTICAL_ACCURACY_METERS` (GnssDebug.cpp line 34). -/
def GNSS_DEBUG_UNKNOWN_VERTICAL_ACCURACY_METERS : ℚ := 20000

/-- `GNSS_DEBUG_UNKNOWN_SPEED_ACCURACY_PER_SEC` (GnssDebug.cpp line 35). -/
def GNSS_DEBUG_UNKNOWN_SPEED_ACCURACY_PER_SEC : ℚ := 500

/-- `GNSS_DEBUG_UNKNOWN_BEARING_ACCURACY_DEG` (GnssDebug.cpp line 36). -/
def GNSS_DEBUG_UNKNOWN_BEARING_ACCURACY_DEG : ℚ := 180

/-- `GNSS_DEBUG_UNKNOWN_UTC_TIME` (GnssDebug.cpp line 38), 1/1/2017 00:00 GMT. -/
def GNSS_DEBUG_UNKNOWN_UTC_TIME : Int := 1483228800000

/-- The location block `reports.mLocation` of a `GnssDebugReport`, without the altitude
and the report time `mUtcReported`. -/
structure GnssDebugLocation where
  mValid : Bool
  latitude : ℚ
  longitude : ℚ
  speed : ℚ
  bearing : ℚ
  accuracy : ℚ
  verticalAccuracyMeters : ℚ
  speedAccuracyMetersPerSecond : ℚ
  bearingAccuracyDegrees : ℚ
  deriving DecidableEq

/-- The time block `reports.mTime` of a `GnssDebugReport`, without the two uncertainty
fields. -/
structure GnssDebugTime where
  mValid : Bool
  timeEstimate : Int
  deriving DecidableEq

/-- The debug report that `getDebugReport` fills, without the satellite list. -/
structure GnssDebugReport where
  mLocation : GnssDebugLocation
  mTime : GnssDebugTime
  deriving DecidableEq

/-- The position block `data.position` of the `DebugData` handed to `_hidl_cb`, without
`altitudeMeters` (a `float` that the code fills from a `double`, so that the copy rounds)
and `ageSeconds` (which depends on the time of day). -/
structure PositionDebug where
  valid : Bool
  latitudeDegrees : ℚ
  longitudeDegrees : ℚ
  speedMetersPerSec : ℚ
  bearingDegrees : ℚ
  horizontalAccuracyMeters : ℚ
  verticalAccuracyMeters : ℚ
  speedAccuracyMetersPerSecond : ℚ
  bearingAccuracyDegrees : ℚ
  deriving DecidableEq

/-- The `DebugData` handed to `_hidl_cb`: the position block and the time estimate. The
two time uncertainties, `ageSeconds` and the satellite array are not modelled. -/
structure DebugData where
  position : PositionDebug
  timeEstimate : Int
  deriving DecidableEq

/-- `DebugData data = { };`: every field zero. -/
def DebugData.zero : DebugData where
  position := PositionDebug.mk false 0 0 0 0 0 0 0 0
  timeEstimate := 0

/-- The data member of `class GnssDebug`: the `Gnss` object (`none` for `nullptr`). -/
structure GnssDebug where
  mGnss : Option Gnss
  deriving DecidableEq, Repr

/-- The test `(nullptr == mGnss) || (nullptr == mGnss->getGnssInterface())`. -/
def GnssDebug.nullGnssInterface (self : GnssDebug) : Bool :=
  match self.mGnss with
  | none => true
  | some gnss => gnss.getGnssInterface.isNone

/-- The location block of `getDebugData` (GnssDebug.cpp lines 69-99): the modelled fields
of a valid location are copied (each copy keeps or widens the type, so the value is
exact), an invalid one leaves the zeros. -/
def GnssDebug.locationBlock (data : DebugData) (reports : GnssDebugReport) : DebugData :=
  if reports.mLocation.mValid then
    { data with
      position :=
        PositionDebug.mk true reports.mLocation.latitude reports.mLocation.longitude
          reports.mLocation.speed reports.mLocation.bearing
          reports.mLocation.accuracy reports.mLocation.verticalAccuracyMeters
          reports.mLocation.speedAccuracyMetersPerSecond
          reports.mLocation.bearingAccuracyDegrees }
  else
    { data with position := { data.position with valid := false } }

/-- The four accuracy tests of `getDebugData` (GnssDebug.cpp lines 101-116): a value that
is `<= 0` or above its `GNSS_DEBUG_UNKNOWN_*` constant is replaced by the constant. -/
def GnssDebug.accuracyBlock (data : DebugData) : DebugData :=
  { data with
    position :=
      { data.position with
        horizontalAccuracyMeters :=
          if data.position.horizontalAccuracyMeters ≤ 0
              ∨ data.position.horizontalAccuracyMeters
                  > GNSS_DEBUG_UNKNOWN_HORIZONTAL_ACCURACY_METERS then
            GNSS_DEBUG_UNKNOWN_HORIZONTAL_ACCURACY_METERS
          else data.position.horizontalAccuracyMeters
        verticalAccuracyMeters :=
          if data.position.verticalAccuracyMeters ≤ 0
              ∨ data.position.verticalAccuracyMeters
                  > GNSS_DEBUG_UNKNOWN_VERTICAL_ACCURACY_METERS then
            GNSS_DEBUG_UNKNOWN_VERTICAL_ACCURACY_METERS
          else data.position.verticalAccuracyMeters
        speedAccuracyMetersPerSecond :=
          if data.position.speedAccuracyMetersPerSecond ≤ 0
              ∨ data.position.speedAccuracyMetersPerSecond
                  > GNSS_DEBUG_UNKNOWN_SPEED_ACCURACY_PER_SEC then
            GNSS_DEBUG_UNKNOWN_SPEED_ACCURACY_PER_SEC
          else data.position.speedAccuracyMetersPerSecond
        bearingAccuracyDegrees :=
          if data.position.bearingAccuracyDegrees ≤ 0
              ∨ data.position.bearingAccuracyDegrees
                  > GNSS_DEBUG_UNKNOWN_BEARING_ACCURACY_DEG then
            GNSS_DEBUG_UNKNOWN_BEARING_ACCURACY_DEG
          else data.position.bearingAccuracyDegrees } }

/-- The time estimate of the time block of `getDebugData` (GnssDebug.cpp lines 118-128): a
valid report's estimate is copied, and an estimate below `GNSS_DEBUG_UNKNOWN_UTC_TIME` is
replaced by that constant. -/
def GnssDebug.timeBlock (data : DebugData) (reports : GnssDebugReport) : DebugData :=
  { data with
    timeEstimate :=
      if (if reports.mTime.mValid then reports.mTime.timeEstimate else data.timeEstimate)
          < GNSS_DEBUG_UNKNOWN_UTC_TIME then
        GNSS_DEBUG_UNKNOWN_UTC_TIME
      else (if reports.mTime.mValid then reports.mTime.timeEstimate else data.timeEstimate) }

/-- `GnssDebug::getDebugData` (GnssDebug.cpp lines 53-169): the `DebugData` handed to
`_hidl_cb`, where `reports` is what `getDebugReport` fills in. -/
def GnssDebug.getDebugData (self : GnssDebug) (reports : GnssDebugReport) : DebugData :=
  if self.nullGnssInterface then DebugData.zero
  else
    GnssDebug.timeBlock
      (GnssDebug.accuracyBlock (GnssDebug.locationBlock DebugData.zero reports)) reports

/-- The accuracy that `getDebugData` is claimed to return: the reported value when the
location block is valid and the value lies in `(0, bound]`, the bound otherwise. -/
def clampedAccuracy (valid : Bool) (reported bound : ℚ) : ℚ :=
  if valid = true ∧ 0 < reported ∧ reported ≤ bound then reported else bound

/-- A debug report with a valid location block (horizontal accuracy 5, vertical accuracy
30000, speed accuracy -1, bearing accuracy 90) and a valid time block (time estimate
1500000000000). -/
def sampleDebugReport : GnssDebugReport where
  mLocation := GnssDebugLocation.mk true 10 20 1 2 5 30000 (-1) 90
  mTime := GnssDebugTime.mk true 1500000000000

/-- Does the operation hand over an active subscriber? Only `setCurrentSubscriber` hands a
subscriber to the state machine; the manager builds the subscriber of a request anew (spec
section 4.2: "a newly constructed Subscriber"), and a subscriber is marked inactive only
"once notified of a terminal outcome" (section 3), so it is active when handed over. -/
def Op.carriesActiveSubscriber : Op → Bool
  | Op.setter (SetterCall.setCurrentSubscriber (some s)) => !s.mIsInactive
  | _ => true

/-- A state machine in `PENDING` with the active subscribers 1 and 2: the state after
`SUBSCRIBE` of 1 and then of 2 on a new machine. -/
def pendingOneThenTwo : AgpsStateMachine where
  mAgpsManager := 0
  mSubscriberList := [AgpsSubscriber.mk 1 false false 0, AgpsSubscriber.mk 2 false false 0]
  mCurrentSubscriber := some (AgpsSubscriber.mk 2 false false 0)
  mState := AgpsState.AGPS_STATE_PENDING
  mFrameworkStatusV4Cb := none
  mAgpsType := 1
  mApnTypeMask := 0
  mAPN := none
  mAPNLen := 0
  mBearer := AGpsBearerType.AGPS_APN_BEARER_INVALID

/-! ## Properties of the code of Agps.h -/

theorem applySetter_mState (sm : AgpsStateMachine) (c : SetterCall) :
    (applySetter sm c).mState = sm.mState := by
  cases c <;> rfl

theorem applySetters_mState (calls : List SetterCall) (sm : AgpsStateMachine) :
    (applySetters sm calls).mState = sm.mState := by
  induction calls generalizing sm with
  | nil => rfl
  | cons c rest ih =>
    show (applySetters (applySetter sm c) rest).mState = sm.mState
    rw [ih, applySetter_mState]

theorem applySetters_mCurrentSubscriber (calls : List SetterCall) (sm : AgpsStateMachine) :
    (applySetters sm calls).mCurrentSubscriber
      = lastCurrentSubscriber sm.mCurrentSubscriber calls := by
  induction calls generalizing sm with
  | nil => rfl
  | cons c rest ih =>
    show (applySetters (applySetter sm c) rest).mCurrentSubscriber = _
    rw [ih]
    cases c <;> rfl

/-- C1 (as amended): in every state reached from a newly constructed state machine by the
inline setters of Agps.h, the state is still `RELEASED` and the current subscriber is the
argument of the most recent `setCurrentSubscriber` call (null when there was none). -/
theorem C1_current_subscriber_is_last_set (agpsManager : Nat) (agpsType : AGpsExtType)
    (uninitMask : LocApnTypeMask) (calls : List SetterCall) :
    (applySetters (newAgpsStateMachine agpsManager agpsType uninitMask) calls).mState
        = AgpsState.AGPS_STATE_RELEASED
      ∧ (applySetters (newAgpsStateMachine agpsManager agpsType uninitMask)
          calls).mCurrentSubscriber = lastCurrentSubscriber none calls := by
  constructor
  · rw [applySetters_mState]; rfl
  · rw [applySetters_mCurrentSubscriber]; rfl

/-- C1 (counterexample): after `setCurrentSubscriber(&s)` on a newly constructed state
machine the current subscriber is non-null although the state is `RELEASED`. -/
theorem C1_counterexample :
    ¬ currentOnlyWhilePendingOrReleasing
        ((newAgpsStateMachine 0 1 0).setCurrentSubscriber
          (some (AgpsSubscriber.mk 1 false false 0))) := by
  intro h
  have h2 := h (by decide)
  revert h2
  decide

/-- C8: a newly constructed state machine is in state `RELEASED` (not `INVALID`), has an
empty subscriber list, no current subscriber, no APN (null, length 0), the bearer
`AGPS_APN_BEARER_INVALID`, no framework status callback, and `getType()` is the type it
was constructed with. -/
theorem C8_constructor_initial_state (agpsManager : Nat) (t : AGpsExtType)
    (uninitMask : LocApnTypeMask) :
    (newAgpsStateMachine agpsManager t uninitMask).mState = AgpsState.AGPS_STATE_RELEASED
      ∧ (newAgpsStateMachine agpsManager t uninitMask).mState
          ≠ AgpsState.AGPS_STATE_INVALID
      ∧ (newAgpsStateMachine agpsManager t uninitMask).mSubscriberList = []
      ∧ (newAgpsStateMachine agpsManager t uninitMask).mCurrentSubscriber = none
      ∧ (newAgpsStateMachine agpsManager t uninitMask).getAPN = none
      ∧ (newAgpsStateMachine agpsManager t uninitMask).getAPNLen = 0
      ∧ (newAgpsStateMachine agpsManager t uninitMask).getBearer
          = AGpsBearerType.AGPS_APN_BEARER_INVALID
      ∧ (newAgpsStateMachine agpsManager t uninitMask).mFrameworkStatusV4Cb = none
      ∧ (newAgpsStateMachine agpsManager t uninitMask).getType = t := by
  refine ⟨rfl, ?_, rfl, rfl, rfl, rfl, rfl, rfl, rfl⟩
  simp [newAgpsStateMachine]

/-- C9: `a.equals(b)` is true exactly when the connection handles are equal, whatever the
other three fields are; hence `equals` is reflexive, symmetric and transitive. -/
theorem C9_equals_iff_same_handle :
    (∀ (h1 h2 : Int) (w1 w2 i1 i2 : Bool) (m1 m2 : LocApnTypeMask),
        (AgpsSubscriber.mk h1 w1 i1 m1).equals (AgpsSubscriber.mk h2 w2 i2 m2) = true
          ↔ h1 = h2)
      ∧ (∀ a : AgpsSubscriber, a.equals a = true)
      ∧ (∀ a b : AgpsSubscriber, a.equals b = b.equals a)
      ∧ (∀ a b c : AgpsSubscriber,
          a.equals b = true → b.equals c = true → a.equals c = true) := by
  refine ⟨?_, ?_, ?_, ?_⟩
  · intro h1 h2 w1 w2 i1 i2 m1 m2
    simp [AgpsSubscriber.equals]
  · intro a
    simp [AgpsSubscriber.equals]
  · intro a b
    simp only [AgpsSubscriber.equals]
    by_cases h : a.mConnHandle = b.mConnHandle
    · simp [h]
    · have h2 : ¬ b.mConnHandle = a.mConnHandle := fun e => h e.symm
      simp [h, h2]
  · intro a b c hab hbc
    simp only [AgpsSubscriber.equals, beq_iff_eq] at *
    exact hab.trans hbc

/-- C10 (as amended): `isRegistered()` is true exactly when at least one state machine
(AGNSS or Internet) has been constructed, whether or not the platform callbacks have been
registered: `registerATLCallbacks` does not change its result, and on a newly constructed
manager it is false. -/
theorem C10_isRegistered_iff_state_machine :
    (∀ m : AgpsManager, m.isRegistered = true ↔ m.hasStateMachine)
      ∧ (∀ (m : AgpsManager) (openCb closeCb : Option Nat),
          (m.registerATLCallbacks openCb closeCb).isRegistered = m.isRegistered)
      ∧ newAgpsManager.isRegistered = false := by
  refine ⟨?_, ?_, rfl⟩
  · intro m
    simp only [AgpsManager.isRegistered, AgpsManager.hasStateMachine, Bool.or_eq_true,
      Option.isSome_iff_ne_none]
  · intro m openCb closeCb
    rfl

/-- C10 (counterexample): a manager whose AGNSS state machine has been constructed but
whose platform callbacks were never registered answers `isRegistered() = true`, so
`isRegistered()` is not equivalent to "a state machine exists and the callbacks are
registered". -/
theorem C10_counterexample :
    ¬ ((AgpsManager.mk none none (some (newAgpsStateMachine 0 1 0)) none).isRegistered = true
        ↔ ((AgpsManager.mk none none (some (newAgpsStateMachine 0 1 0)) none).hasStateMachine
            ∧ (AgpsManager.mk none none (some (newAgpsStateMachine 0 1 0))
                none).callbacksRegistered)) := by
  intro h
  have h2 := (h.mp (by decide)).2.1
  exact h2 rfl


/-! ## Properties of the state-machine operations modelled from the specification -/

theorem statusNotification_notifyEventToSubscriber (sm : AgpsStateMachine)
    (e e2 : AgpsEvent) (s : AgpsSubscriber) (del : Bool) :
    (sm.notifyEventToSubscriber e s del).1.statusNotification e2 = sm.statusNotification e2 := by
  funext x
  cases del <;> cases hw : s.mWaitForCloseComplete <;>
    simp [AgpsStateMachine.notifyEventToSubscriber, AgpsStateMachine.statusNotification,
      AgpsStateMachine.markInactive, AgpsStateMachine.deleteSubscriber, hw]

theorem notifyEach_actions (e : AgpsEvent) (del : Bool) (l : List AgpsSubscriber) :
    ∀ sm : AgpsStateMachine,
      (AgpsStateMachine.notifyEach e del sm l).2 = l.map (sm.statusNotification e) := by
  induction l with
  | nil => intro sm; rfl
  | cons s rest ih =>
    intro sm
    simp only [AgpsStateMachine.notifyEach, List.map_cons]
    rw [ih, statusNotification_notifyEventToSubscriber]
    rfl

theorem notifyEach_keep (e : AgpsEvent) (l : List AgpsSubscriber) :
    ∀ sm : AgpsStateMachine, (AgpsStateMachine.notifyEach e false sm l).1 = sm := by
  induction l with
  | nil => intro sm; rfl
  | cons s rest ih =>
    intro sm
    simp only [AgpsStateMachine.notifyEach]
    rw [ih]
    rfl

theorem notificationTargets_all_perm (l : List AgpsSubscriber) :
    (notificationTargets l
      AgpsNotificationType.AGPS_NOTIFICATION_TYPE_FOR_ALL_SUBSCRIBERS).Perm l := by
  simp only [notificationTargets]
  induction l with
  | nil => simp
  | cons s rest ih =>
    cases hs : s.mIsInactive
    · simpa [List.filter_cons, hs] using ih
    · simp only [List.filter_cons, hs, Bool.not_true, Bool.false_eq_true, if_false, if_true]
      exact (List.perm_middle).trans (ih.cons s)

theorem notificationTargets_all_active (l : List AgpsSubscriber)
    (h : ∀ s ∈ l, s.mIsInactive = false) :
    notificationTargets l AgpsNotificationType.AGPS_NOTIFICATION_TYPE_FOR_ALL_SUBSCRIBERS
      = l := by
  simp only [notificationTargets]
  have h1 : l.filter (fun s => !s.mIsInactive) = l := by
    apply List.filter_eq_self.mpr
    intro s hs
    simp [h s hs]
  have h2 : l.filter (fun s => s.mIsInactive) = [] := by
    apply List.filter_eq_nil_iff.mpr
    intro s hs
    simp [h s hs]
  rw [h1, h2, List.append_nil]

theorem granted_in_list_order_of_all_active (sm : AgpsStateMachine)
    (hst : sm.mState = AgpsState.AGPS_STATE_PENDING)
    (hne : sm.mSubscriberList ≠ [])
    (hact : ∀ s ∈ sm.mSubscriberList, s.mIsInactive = false) :
    grantedNotifiesInListOrder sm := by
  refine ⟨sm.transitionState AgpsState.AGPS_STATE_ACQUIRED, ?_, rfl⟩
  have hemp : sm.mSubscriberList.isEmpty = false := by
    cases hl : sm.mSubscriberList with
    | nil => exact absurd hl hne
    | cons a t => rfl
  simp only [AgpsStateMachine.processAgpsEvent, AgpsStateMachine.processAgpsEventGranted,
    hst, hemp, AgpsStateMachine.notifyAllSubscribers, notifyEach_keep, notifyEach_actions,
    notificationTargets_all_active _ hact]
  rfl

/-- C5: for every state machine in `PENDING`, processing `DENIED` notifies every
subscriber of the list with `DENIED` (the notifications are those of the list, each
once), leaves the subscriber list empty and the state `RELEASED`, and invokes no
close-request (and no open-request) callback. -/
theorem C5_denied_notifies_all_and_releases (sm : AgpsStateMachine)
    (hst : sm.mState = AgpsState.AGPS_STATE_PENDING) :
    ∃ (sm' : AgpsStateMachine) (acts : List AgpsAction),
      sm.processAgpsEvent AgpsEvent.AGPS_EVENT_DENIED = some (sm', acts)
        ∧ sm'.mSubscriberList = []
        ∧ sm'.mState = AgpsState.AGPS_STATE_RELEASED
        ∧ acts.Perm
            (sm.mSubscriberList.map (sm.statusNotification AgpsEvent.AGPS_EVENT_DENIED))
        ∧ (∀ s ∈ sm.mSubscriberList,
            sm.statusNotification AgpsEvent.AGPS_EVENT_DENIED s ∈ acts)
        ∧ (∀ a ∈ acts, a.isCloseRequest = false ∧ a.isOpenRequest = false) := by
  have hperm : ((sm.notifyAllSubscribers AgpsEvent.AGPS_EVENT_DENIED true
        AgpsNotificationType.AGPS_NOTIFICATION_TYPE_FOR_ALL_SUBSCRIBERS).2).Perm
      (sm.mSubscriberList.map (sm.statusNotification AgpsEvent.AGPS_EVENT_DENIED)) := by
    simp only [AgpsStateMachine.notifyAllSubscribers, notifyEach_actions]
    exact (notificationTargets_all_perm _).map _
  refine ⟨({ sm with mSubscriberList := [] }).transitionState AgpsState.AGPS_STATE_RELEASED,
    (sm.notifyAllSubscribers AgpsEvent.AGPS_EVENT_DENIED true
        AgpsNotificationType.AGPS_NOTIFICATION_TYPE_FOR_ALL_SUBSCRIBERS).2,
    ?_, rfl, rfl, hperm, ?_, ?_⟩
  · simp only [AgpsStateMachine.processAgpsEvent, AgpsStateMachine.processAgpsEventDenied,
      hst]
  · intro s hs
    exact hperm.symm.subset (List.mem_map_of_mem _ hs)
  · intro a ha
    obtain ⟨s, -, rfl⟩ := List.mem_map.mp (hperm.subset ha)
    exact ⟨rfl, rfl⟩

/-- C5 (witness): `DENIED` in `PENDING` with subscribers 1 (inactive) and 2. -/
theorem C5_denied_notifies_all_and_releases_witness :
    ∃ (sm' : AgpsStateMachine) (acts : List AgpsAction),
      pendingInactiveThenActive.processAgpsEvent AgpsEvent.AGPS_EVENT_DENIED
          = some (sm', acts)
        ∧ sm'.mSubscriberList = []
        ∧ sm'.mState = AgpsState.AGPS_STATE_RELEASED
        ∧ acts.Perm (pendingInactiveThenActive.mSubscriberList.map
            (pendingInactiveThenActive.statusNotification AgpsEvent.AGPS_EVENT_DENIED))
        ∧ (∀ s ∈ pendingInactiveThenActive.mSubscriberList,
            pendingInactiveThenActive.statusNotification AgpsEvent.AGPS_EVENT_DENIED s ∈ acts)
        ∧ (∀ a ∈ acts, a.isCloseRequest = false ∧ a.isOpenRequest = false) :=
  C5_denied_notifies_all_and_releases pendingInactiveThenActive rfl

/-- C6: for every (state, event) pair that the transition table does not list,
`processAgpsEvent` returns the state machine as it was (state, subscriber list and every
other member unchanged) and invokes no callback. -/
theorem C6_unlisted_pair_is_noop (sm : AgpsStateMachine) (event : AgpsEvent)
    (h : transitionTableLists sm.mState event = false) :
    sm.processAgpsEvent event = some (sm, []) := by
  cases event <;> cases hs : sm.mState <;>
    simp_all [transitionTableLists, AgpsStateMachine.processAgpsEvent,
      AgpsStateMachine.processAgpsEventSubscribe,
      AgpsStateMachine.processAgpsEventUnsubscribe,
      AgpsStateMachine.processAgpsEventGranted,
      AgpsStateMachine.processAgpsEventReleased,
      AgpsStateMachine.processAgpsEventDenied]

/-- C6 (witness): `GRANTED` while `RELEASED`, on a newly constructed state machine. -/
theorem C6_unlisted_pair_is_noop_witness :
    (newAgpsStateMachine 0 1 0).processAgpsEvent AgpsEvent.AGPS_EVENT_GRANTED
      = some (newAgpsStateMachine 0 1 0, []) :=
  C6_unlisted_pair_is_noop (newAgpsStateMachine 0 1 0) AgpsEvent.AGPS_EVENT_GRANTED rfl

/-- C7: for every manager, `handleModemSSR` keeps the state machines the manager owns,
leaves each of them with an empty subscriber list and in state `RELEASED`, and invokes no
callback (neither a subscriber notification nor a platform open or close request). -/
theorem C7_handleModemSSR_drops_all (m : AgpsManager) :
    m.handleModemSSR.2 = []
      ∧ (m.handleModemSSR.1.mAgnssNif.isSome = m.mAgnssNif.isSome)
      ∧ (m.handleModemSSR.1.mInternetNif.isSome = m.mInternetNif.isSome)
      ∧ (∀ sm, (m.handleModemSSR.1.mAgnssNif = some sm
                  ∨ m.handleModemSSR.1.mInternetNif = some sm) →
          sm.mSubscriberList = [] ∧ sm.mState = AgpsState.AGPS_STATE_RELEASED)
      ∧ m.handleModemSSR.1.mAtlOpenStatusCb = m.mAtlOpenStatusCb
      ∧ m.handleModemSSR.1.mAtlCloseStatusCb = m.mAtlCloseStatusCb := by
  refine ⟨rfl, ?_, ?_, ?_, rfl, rfl⟩
  · simp [AgpsManager.handleModemSSR]
  · simp [AgpsManager.handleModemSSR]
  · intro sm h
    simp only [AgpsManager.handleModemSSR, Option.map_eq_some'] at h
    rcases h with ⟨a, -, rfl⟩ | ⟨a, -, rfl⟩ <;> exact ⟨rfl, rfl⟩

/-! ### No two subscribers with the same connection handle -/

theorem handles_addSubscriber (sm : AgpsStateMachine) (s : AgpsSubscriber)
    (h : sm.handles.Nodup) : (sm.addSubscriber s).handles.Nodup := by
  unfold AgpsStateMachine.addSubscriber
  cases hg : sm.getSubscriber s.mConnHandle with
  | some x => exact h
  | none =>
    have hno : ∀ x ∈ sm.mSubscriberList, x.mConnHandle ≠ s.mConnHandle := by
      intro x hx
      have := (List.find?_eq_none.mp hg) x hx
      simpa using this
    simp only [AgpsStateMachine.handles, List.map_append, List.map_cons, List.map_nil]
    apply List.Nodup.append h (List.nodup_singleton _)
    intro a ha hb
    obtain ⟨x, hx, rfl⟩ := List.mem_map.mp ha
    simp only [List.mem_singleton] at hb
    exact hno x hx hb

theorem handles_filter (sm : AgpsStateMachine) (p : AgpsSubscriber → Bool)
    (h : sm.handles.Nodup) :
    ({ sm with mSubscriberList := sm.mSubscriberList.filter p } : AgpsStateMachine
      ).handles.Nodup :=
  List.Nodup.sublist ((List.filter_sublist _).map _) h

theorem handles_deleteSubscriber (sm : AgpsStateMachine) (s : AgpsSubscriber)
    (h : sm.handles.Nodup) : (sm.deleteSubscriber s).handles.Nodup :=
  handles_filter sm _ h

theorem handles_markInactive (sm : AgpsStateMachine) (s : AgpsSubscriber) :
    (sm.markInactive s).handles = sm.handles := by
  simp only [AgpsStateMachine.handles, AgpsStateMachine.markInactive, List.map_map]
  apply List.map_congr_left
  intro x _
  simp only [Function.comp]
  split <;> rfl

theorem handles_notifyEventToSubscriber (sm : AgpsStateMachine) (e : AgpsEvent)
    (s : AgpsSubscriber) (del : Bool) (h : sm.handles.Nodup) :
    (sm.notifyEventToSubscriber e s del).1.handles.Nodup := by
  unfold AgpsStateMachine.notifyEventToSubscriber
  cases del
  · exact h
  · cases hw : s.mWaitForCloseComplete
    · exact handles_deleteSubscriber sm s h
    · simp only [if_true]
      rw [handles_markInactive]
      exact h

theorem nodup_addSubscriber_present (sm : AgpsStateMachine) (s : AgpsSubscriber)
    (h : s.mConnHandle ∈ sm.handles) : sm.addSubscriber s = sm := by
  unfold AgpsStateMachine.addSubscriber
  cases hg : sm.getSubscriber s.mConnHandle with
  | some x => rfl
  | none =>
    exfalso
    obtain ⟨x, hx, hxe⟩ := List.mem_map.mp h
    have := (List.find?_eq_none.mp hg) x hx
    simp [hxe] at this

theorem handles_processAgpsEvent (sm : AgpsStateMachine) (event : AgpsEvent)
    (r : AgpsStateMachine × List AgpsAction) (h : sm.handles.Nodup)
    (hr : sm.processAgpsEvent event = some r) : r.1.handles.Nodup := by
  have hnil : ∀ st : AgpsState,
      (({ sm with mSubscriberList := [] } : AgpsStateMachine).transitionState st
        ).handles.Nodup := fun _ => List.nodup_nil
  have hclose : sm.closeCompleted.1.handles.Nodup := by
    unfold AgpsStateMachine.closeCompleted
    split
    · exact handles_filter sm _ h
    · exact List.nodup_nil
  cases event <;>
    simp only [AgpsStateMachine.processAgpsEvent, AgpsStateMachine.processAgpsEventSubscribe,
      AgpsStateMachine.processAgpsEventUnsubscribe,
      AgpsStateMachine.processAgpsEventGranted,
      AgpsStateMachine.processAgpsEventReleased,
      AgpsStateMachine.processAgpsEventDenied] at hr
  case AGPS_EVENT_INVALID =>
    cases hr; exact h
  case AGPS_EVENT_SUBSCRIBE =>
    split at hr
    · obtain ⟨s, -, rfl⟩ := Option.map_eq_some'.mp hr
      split
      · exact handles_addSubscriber sm s h
      · exact handles_addSubscriber sm s h
    · obtain ⟨s, -, rfl⟩ := Option.map_eq_some'.mp hr
      exact handles_addSubscriber sm s h
    · obtain ⟨s, -, rfl⟩ := Option.map_eq_some'.mp hr
      exact handles_addSubscriber _ s h
    · obtain ⟨s, -, rfl⟩ := Option.map_eq_some'.mp hr
      exact handles_addSubscriber sm s h
    · cases hr; exact h
  case AGPS_EVENT_UNSUBSCRIBE =>
    split at hr
    · obtain ⟨s, -, rfl⟩ := Option.map_eq_some'.mp hr
      exact handles_deleteSubscriber sm s h
    · obtain ⟨s, -, rfl⟩ := Option.map_eq_some'.mp hr
      split
      · exact h
      · split
        · exact handles_deleteSubscriber sm s h
        · exact handles_deleteSubscriber sm s h
    · cases hr; exact h
  case AGPS_EVENT_GRANTED =>
    split at hr
    · split at hr
      · cases hr; exact h
      · cases hr
        simp only [AgpsStateMachine.notifyAllSubscribers, notifyEach_keep]
        exact h
    · cases hr; exact hclose
    · cases hr; exact h
  case AGPS_EVENT_RELEASED =>
    split at hr
    · cases hr; exact hclose
    · cases hr; exact h
  case AGPS_EVENT_DENIED =>
    split at hr
    · cases hr; exact hnil _
    · cases hr; exact h

theorem applySetter_mSubscriberList (sm : AgpsStateMachine) (c : SetterCall) :
    (applySetter sm c).mSubscriberList = sm.mSubscriberList := by
  cases c <;> rfl

theorem handles_applyOp (sm : AgpsStateMachine) (op : Op)
    (r : AgpsStateMachine × List AgpsAction) (h : sm.handles.Nodup)
    (hr : applyOp sm op = some r) : r.1.handles.Nodup := by
  cases op with
  | setter c =>
    cases hr
    simpa only [AgpsStateMachine.handles, applySetter_mSubscriberList] using h
  | setAPN apn len => cases hr; exact h
  | processAgpsEvent e => exact handles_processAgpsEvent sm e r h hr
  | dropAllSubscribers => cases hr; exact List.nodup_nil

theorem runOps_cons_some (sm : AgpsStateMachine) (op : Op) (rest : List Op)
    (r : AgpsStateMachine × List AgpsAction) (h : runOps sm (op :: rest) = some r) :
    ∃ r1 r2, applyOp sm op = some r1 ∧ runOps r1.1 rest = some r2
      ∧ r = (r2.1, r1.2 ++ r2.2) := by
  simp only [runOps] at h
  cases h1 : applyOp sm op with
  | none => simp [h1] at h
  | some r1 =>
    cases h2 : runOps r1.1 rest with
    | none => simp [h1, h2] at h
    | some r2 =>
      simp only [h1, h2, Option.some.injEq] at h
      exact ⟨r1, r2, rfl, h2, h.symm⟩

theorem handles_runOps (ops : List Op) :
    ∀ (sm : AgpsStateMachine) (r : AgpsStateMachine × List AgpsAction),
      sm.handles.Nodup → runOps sm ops = some r → r.1.handles.Nodup := by
  induction ops with
  | nil =>
    intro sm r h hr
    cases hr
    exact h
  | cons op rest ih =>
    intro sm r h hr
    obtain ⟨r1, r2, h1, h2, rfl⟩ := runOps_cons_some sm op rest r hr
    exact ih r1.1 r2 (handles_applyOp sm op r1 h h1) h2

theorem subscribe_present_noop (sm : AgpsStateMachine) (s : AgpsSubscriber)
    (hc : sm.mCurrentSubscriber = some s) (hp : s.mConnHandle ∈ sm.handles) :
    ∃ (sm' : AgpsStateMachine) (acts : List AgpsAction),
      sm.processAgpsEvent AgpsEvent.AGPS_EVENT_SUBSCRIBE = some (sm', acts)
        ∧ sm'.mSubscriberList = sm.mSubscriberList
        ∧ ∀ a ∈ acts, a.isOpenRequest = false := by
  have hadd := nodup_addSubscriber_present sm s hp
  have hemp : sm.mSubscriberList.isEmpty = false := by
    cases hl : sm.mSubscriberList with
    | nil => simp [AgpsStateMachine.handles, hl] at hp
    | cons a t => rfl
  cases hs : sm.mState
  · exact ⟨sm, [], by
      simp [AgpsStateMachine.processAgpsEvent, AgpsStateMachine.processAgpsEventSubscribe, hs],
      rfl, by simp⟩
  · exact ⟨sm, [], by
      simp [AgpsStateMachine.processAgpsEvent, AgpsStateMachine.processAgpsEventSubscribe, hs,
        hc, hemp, hadd],
      rfl, by simp⟩
  · exact ⟨sm, [], by
      simp [AgpsStateMachine.processAgpsEvent, AgpsStateMachine.processAgpsEventSubscribe, hs,
        hc, hadd],
      rfl, by simp⟩
  · refine ⟨sm, [sm.statusNotification AgpsEvent.AGPS_EVENT_GRANTED s], ?_, rfl, ?_⟩
    · simp [AgpsStateMachine.processAgpsEvent, AgpsStateMachine.processAgpsEventSubscribe, hs,
        hc, AgpsStateMachine.notifyEventToSubscriber, hadd]
    · intro a ha
      simp only [List.mem_singleton] at ha
      subst ha
      rfl
  · exact ⟨sm, [], by
      simp [AgpsStateMachine.processAgpsEvent, AgpsStateMachine.processAgpsEventSubscribe, hs,
        hc, hadd],
      rfl, by simp⟩

/-- C2: starting from a state machine whose list has no two subscribers with the same
connection handle (a newly constructed one, for instance), after every sequence of public
operations the list again has no two subscribers with the same handle; and in the state
reached, a `SUBSCRIBE` whose handle is already present leaves the list unchanged and emits
no open request. -/
theorem C2_no_duplicate_handles (sm : AgpsStateMachine) (ops : List Op)
    (r : AgpsStateMachine × List AgpsAction) (hnd : sm.handles.Nodup)
    (hrun : runOps sm ops = some r) :
    r.1.handles.Nodup
      ∧ ∀ s : AgpsSubscriber, r.1.mCurrentSubscriber = some s →
          s.mConnHandle ∈ r.1.handles →
          ∃ (sm' : AgpsStateMachine) (acts : List AgpsAction),
            r.1.processAgpsEvent AgpsEvent.AGPS_EVENT_SUBSCRIBE = some (sm', acts)
              ∧ sm'.mSubscriberList = r.1.mSubscriberList
              ∧ ∀ a ∈ acts, a.isOpenRequest = false :=
  ⟨handles_runOps ops sm r hnd hrun, fun s hc hp => subscribe_present_noop r.1 s hc hp⟩

/-- C2 (witness): a new state machine after `SUBSCRIBE` of handle 1 twice, then of handle
2, and `GRANTED`: the list holds 1 and 2 once each. -/
theorem C2_no_duplicate_handles_witness :
    acquiredOneThenTwo.handles = [1, 2]
      ∧ acquiredOneThenTwo.handles.Nodup
      ∧ ∀ s : AgpsSubscriber, acquiredOneThenTwo.mCurrentSubscriber = some s →
          s.mConnHandle ∈ acquiredOneThenTwo.handles →
          ∃ (sm' : AgpsStateMachine) (acts : List AgpsAction),
            acquiredOneThenTwo.processAgpsEvent AgpsEvent.AGPS_EVENT_SUBSCRIBE
                = some (sm', acts)
              ∧ sm'.mSubscriberList = acquiredOneThenTwo.mSubscriberList
              ∧ ∀ a ∈ acts, a.isOpenRequest = false :=
  ⟨rfl,
    C2_no_duplicate_handles (newAgpsStateMachine 0 1 0)
      (requestOps [Request.subscribe (AgpsSubscriber.mk 1 false false 0),
                   Request.subscribe (AgpsSubscriber.mk 1 true false 7),
                   Request.subscribe (AgpsSubscriber.mk 2 false false 0)]
        ++ [Op.processAgpsEvent AgpsEvent.AGPS_EVENT_GRANTED])
      (acquiredOneThenTwo,
        [AgpsAction.openRequest 1 0,
         AgpsAction.notify 1 AgpsEvent.AGPS_EVENT_GRANTED none 0
           AGpsBearerType.AGPS_APN_BEARER_INVALID 1,
         AgpsAction.notify 2 AgpsEvent.AGPS_EVENT_GRANTED none 0
           AGpsBearerType.AGPS_APN_BEARER_INVALID 1])
      List.nodup_nil (by decide)⟩

/-! ### A state machine in `RELEASED` has no subscribers -/

theorem addSubscriber_mState (sm : AgpsStateMachine) (s : AgpsSubscriber) :
    (sm.addSubscriber s).mState = sm.mState := by
  unfold AgpsStateMachine.addSubscriber
  split <;> rfl

theorem releasedEmpty_processAgpsEvent (sm : AgpsStateMachine) (event : AgpsEvent)
    (r : AgpsStateMachine × List AgpsAction)
    (h : sm.mState = AgpsState.AGPS_STATE_RELEASED → sm.mSubscriberList = [])
    (hr : sm.processAgpsEvent event = some r) :
    r.1.mState = AgpsState.AGPS_STATE_RELEASED → r.1.mSubscriberList = [] := by
  have hclose : sm.closeCompleted.1.mState = AgpsState.AGPS_STATE_RELEASED →
      sm.closeCompleted.1.mSubscriberList = [] := by
    unfold AgpsStateMachine.closeCompleted
    split
    · intro hc; simp [AgpsStateMachine.transitionState] at hc
    · intro _; rfl
  cases event <;>
    simp only [AgpsStateMachine.processAgpsEvent, AgpsStateMachine.processAgpsEventSubscribe,
      AgpsStateMachine.processAgpsEventUnsubscribe,
      AgpsStateMachine.processAgpsEventGranted,
      AgpsStateMachine.processAgpsEventReleased,
      AgpsStateMachine.processAgpsEventDenied] at hr
  case AGPS_EVENT_INVALID =>
    cases hr; exact h
  case AGPS_EVENT_SUBSCRIBE =>
    split at hr
    next hs =>
      obtain ⟨s, -, rfl⟩ := Option.map_eq_some'.mp hr
      have hemp : sm.mSubscriberList.isEmpty = true := by rw [h hs]; rfl
      simp only [hemp, if_true]
      intro hc; simp [AgpsStateMachine.transitionState] at hc
    next hs =>
      obtain ⟨s, -, rfl⟩ := Option.map_eq_some'.mp hr
      intro hc
      rw [addSubscriber_mState, hs] at hc
      cases hc
    next hs =>
      obtain ⟨s, -, rfl⟩ := Option.map_eq_some'.mp hr
      intro hc
      rw [addSubscriber_mState] at hc
      simp [AgpsStateMachine.notifyEventToSubscriber, hs] at hc
    next hs =>
      obtain ⟨s, -, rfl⟩ := Option.map_eq_some'.mp hr
      intro hc
      rw [addSubscriber_mState, hs] at hc
      cases hc
    next hs => cases hr; exact h
  case AGPS_EVENT_UNSUBSCRIBE =>
    split at hr
    next hs =>
      obtain ⟨s, -, rfl⟩ := Option.map_eq_some'.mp hr
      intro hc
      simp [AgpsStateMachine.deleteSubscriber, hs] at hc
    next hs =>
      obtain ⟨s, -, rfl⟩ := Option.map_eq_some'.mp hr
      split
      · exact h
      · split
        · intro hc; simp [AgpsStateMachine.transitionState] at hc
        · intro hc; simp [AgpsStateMachine.deleteSubscriber, hs] at hc
    next => cases hr; exact h
  case AGPS_EVENT_GRANTED =>
    split at hr
    · split at hr
      · cases hr; intro hc; simp [AgpsStateMachine.transitionState] at hc
      · cases hr; intro hc; simp [AgpsStateMachine.transitionState] at hc
    · cases hr; exact hclose
    · cases hr; exact h
  case AGPS_EVENT_RELEASED =>
    split at hr
    · cases hr; exact hclose
    · cases hr; exact h
  case AGPS_EVENT_DENIED =>
    split at hr
    · cases hr; intro _; rfl
    · cases hr; exact h

theorem releasedEmpty_applyOp (sm : AgpsStateMachine) (op : Op)
    (r : AgpsStateMachine × List AgpsAction)
    (h : sm.mState = AgpsState.AGPS_STATE_RELEASED → sm.mSubscriberList = [])
    (hr : applyOp sm op = some r) :
    r.1.mState = AgpsState.AGPS_STATE_RELEASED → r.1.mSubscriberList = [] := by
  cases op with
  | setter c =>
    cases hr
    simpa only [applySetter_mState, applySetter_mSubscriberList] using h
  | setAPN apn len => cases hr; exact h
  | processAgpsEvent e => exact releasedEmpty_processAgpsEvent sm e r h hr
  | dropAllSubscribers => cases hr; intro _; rfl

theorem releasedEmpty_runOps (ops : List Op) :
    ∀ (sm : AgpsStateMachine) (r : AgpsStateMachine × List AgpsAction),
      (sm.mState = AgpsState.AGPS_STATE_RELEASED → sm.mSubscriberList = []) →
      runOps sm ops = some r →
      r.1.mState = AgpsState.AGPS_STATE_RELEASED → r.1.mSubscriberList = [] := by
  induction ops with
  | nil =>
    intro sm r h hr
    cases hr
    exact h
  | cons op rest ih =>
    intro sm r h hr
    obtain ⟨r1, r2, h1, h2, rfl⟩ := runOps_cons_some sm op rest r hr
    exact ih r1.1 r2 (releasedEmpty_applyOp sm op r1 h h1) h2

theorem runOps_append (ops1 : List Op) :
    ∀ (sm : AgpsStateMachine) (ops2 : List Op) (r1 r2 : AgpsStateMachine × List AgpsAction),
      runOps sm ops1 = some r1 → runOps r1.1 ops2 = some r2 →
      runOps sm (ops1 ++ ops2) = some (r2.1, r1.2 ++ r2.2) := by
  induction ops1 with
  | nil =>
    intro sm ops2 r1 r2 h1 h2
    cases h1
    simpa using h2
  | cons op rest ih =>
    intro sm ops2 r1 r2 h1 h2
    obtain ⟨ra, rb, ha, hb, rfl⟩ := runOps_cons_some sm op rest r1 h1
    have := ih ra.1 ops2 rb r2 hb h2
    show runOps sm (op :: (rest ++ ops2)) = _
    simp only [runOps, ha, this, List.append_assoc]

theorem requestOps_append (rs1 rs2 : List Request) :
    requestOps (rs1 ++ rs2) = requestOps rs1 ++ requestOps rs2 := by
  induction rs1 with
  | nil => rfl
  | cons r rest ih =>
    show r.ops ++ requestOps (rest ++ rs2) = (r.ops ++ requestOps rest) ++ requestOps rs2
    rw [ih, List.append_assoc]

theorem unsubscribes_while_released (pre : List Request)
    (hpre : ∀ r ∈ pre, r.isSubscribe = false) :
    ∀ sm : AgpsStateMachine, sm.mState = AgpsState.AGPS_STATE_RELEASED →
      ∃ sm1 : AgpsStateMachine, runOps sm (requestOps pre) = some (sm1, [])
        ∧ sm1.mState = AgpsState.AGPS_STATE_RELEASED
        ∧ sm1.mSubscriberList = sm.mSubscriberList
        ∧ sm1.mAgpsType = sm.mAgpsType ∧ sm1.mApnTypeMask = sm.mApnTypeMask := by
  induction pre with
  | nil => intro sm hs; exact ⟨sm, rfl, hs, rfl, rfl, rfl⟩
  | cons r rest ih =>
    intro sm hs
    cases r with
    | subscribe s => simpa [Request.isSubscribe] using hpre (Request.subscribe s)
    | unsubscribe s =>
      obtain ⟨sm1, h1, h2, h3, h4, h5⟩ :=
        ih (fun r hr => hpre r (List.mem_cons_of_mem _ hr))
          (sm.setCurrentSubscriber (some s)) hs
      refine ⟨sm1, ?_, h2, h3, h4, h5⟩
      simp [requestOps, Request.ops, runOps, applyOp, applySetter,
        AgpsStateMachine.processAgpsEvent, AgpsStateMachine.processAgpsEventUnsubscribe,
        AgpsStateMachine.setCurrentSubscriber, hs] at h1 ⊢
      simp [h1]

theorem first_subscribe_opens (sm : AgpsStateMachine) (s : AgpsSubscriber)
    (hs : sm.mState = AgpsState.AGPS_STATE_RELEASED) (hl : sm.mSubscriberList = []) :
    ∃ sm2 : AgpsStateMachine,
      runOps sm (Request.subscribe s).ops
          = some (sm2, [AgpsAction.openRequest sm.mAgpsType sm.mApnTypeMask])
        ∧ sm2.mState = AgpsState.AGPS_STATE_PENDING
        ∧ sm2.mSubscriberList = [s.clone] := by
  refine ⟨((sm.setCurrentSubscriber (some s)).addSubscriber s).transitionState
    AgpsState.AGPS_STATE_PENDING, ?_, rfl, ?_⟩
  · simp [Request.ops, runOps, applyOp, applySetter, AgpsStateMachine.processAgpsEvent,
      AgpsStateMachine.processAgpsEventSubscribe, AgpsStateMachine.setCurrentSubscriber, hs,
      hl, AgpsStateMachine.requestOrReleaseDataConn]
  · simp [AgpsStateMachine.transitionState, AgpsStateMachine.addSubscriber,
      AgpsStateMachine.getSubscriber, AgpsStateMachine.setCurrentSubscriber, hl]

theorem requests_while_pending (post : List Request) :
    ∀ sm : AgpsStateMachine, sm.mState = AgpsState.AGPS_STATE_PENDING →
      ∃ sm3 : AgpsStateMachine, runOps sm (requestOps post) = some (sm3, [])
        ∧ sm3.mState = AgpsState.AGPS_STATE_PENDING := by
  induction post with
  | nil => intro sm hs; exact ⟨sm, rfl, hs⟩
  | cons r rest ih =>
    intro sm hs
    cases r with
    | subscribe s =>
      obtain ⟨sm3, h1, h2⟩ := ih ((sm.setCurrentSubscriber (some s)).addSubscriber s)
        (by rw [addSubscriber_mState]; exact hs)
      refine ⟨sm3, ?_, h2⟩
      simp [requestOps, Request.ops, runOps, applyOp, applySetter,
        AgpsStateMachine.processAgpsEvent, AgpsStateMachine.processAgpsEventSubscribe,
        AgpsStateMachine.setCurrentSubscriber, hs] at h1 ⊢
      simp [h1]
    | unsubscribe s =>
      obtain ⟨sm3, h1, h2⟩ := ih ((sm.setCurrentSubscriber (some s)).deleteSubscriber s) hs
      refine ⟨sm3, ?_, h2⟩
      simp [requestOps, Request.ops, runOps, applyOp, applySetter,
        AgpsStateMachine.processAgpsEvent, AgpsStateMachine.processAgpsEventUnsubscribe,
        AgpsStateMachine.setCurrentSubscriber, hs] at h1 ⊢
      simp [h1]

theorem subscribe_while_pending_adds (sm : AgpsStateMachine) (s : AgpsSubscriber)
    (hs : sm.mState = AgpsState.AGPS_STATE_PENDING) (hn : s.mConnHandle ∉ sm.handles) :
    ∃ smQ : AgpsStateMachine,
      runOps sm (Request.subscribe s).ops = some (smQ, [])
        ∧ smQ.mSubscriberList = sm.mSubscriberList ++ [s.clone]
        ∧ smQ.mState = AgpsState.AGPS_STATE_PENDING := by
  have hg : (sm.setCurrentSubscriber (some s)).getSubscriber s.mConnHandle = none := by
    apply List.find?_eq_none.mpr
    intro x hx hxe
    apply hn
    simp only [beq_iff_eq] at hxe
    exact List.mem_map.mpr ⟨x, hx, hxe⟩
  refine ⟨(sm.setCurrentSubscriber (some s)).addSubscriber s, ?_, ?_, ?_⟩
  · simp [Request.ops, runOps, applyOp, applySetter, AgpsStateMachine.processAgpsEvent,
      AgpsStateMachine.processAgpsEventSubscribe, AgpsStateMachine.setCurrentSubscriber, hs]
  · simp only [AgpsStateMachine.addSubscriber, hg]
    rfl
  · rw [addSubscriber_mState]; exact hs

/-- C4: let a state machine reached from a newly constructed one be in `RELEASED`, and let
a sequence of `SUBSCRIBE`/`UNSUBSCRIBE` requests be applied to it with no platform event
in between, `SUBSCRIBE` of `s` being the first `SUBSCRIBE` of the sequence. Then the
requests before it invoke no callback, that `SUBSCRIBE` invokes the open-request callback
once, the requests after it invoke no callback, so that the whole sequence invokes the
open-request callback exactly once and nothing else, and the state machine ends in
`PENDING`. Moreover a `SUBSCRIBE` with a handle not yet in the list, processed in
`PENDING`, appends the clone of the subscriber and invokes no callback. (The handles need
not be distinct for the first part.) -/
theorem C4_single_open_request (agpsManager : Nat) (t : AGpsExtType)
    (uninitMask : LocApnTypeMask) (ops0 : List Op) (sm : AgpsStateMachine)
    (acts0 : List AgpsAction)
    (hreach : runOps (newAgpsStateMachine agpsManager t uninitMask) ops0 = some (sm, acts0))
    (hst : sm.mState = AgpsState.AGPS_STATE_RELEASED)
    (pre post : List Request) (s : AgpsSubscriber)
    (hpre : ∀ r ∈ pre, r.isSubscribe = false) :
    ∃ sm1 sm2 sm3 : AgpsStateMachine,
      runOps sm (requestOps pre) = some (sm1, [])
        ∧ runOps sm1 (Request.subscribe s).ops
            = some (sm2, [AgpsAction.openRequest sm.mAgpsType sm.mApnTypeMask])
        ∧ runOps sm2 (requestOps post) = some (sm3, [])
        ∧ runOps sm (requestOps (pre ++ Request.subscribe s :: post))
            = some (sm3, [AgpsAction.openRequest sm.mAgpsType sm.mApnTypeMask])
        ∧ sm3.mState = AgpsState.AGPS_STATE_PENDING
        ∧ ∀ (smP : AgpsStateMachine) (s' : AgpsSubscriber),
            smP.mState = AgpsState.AGPS_STATE_PENDING → s'.mConnHandle ∉ smP.handles →
            ∃ smQ : AgpsStateMachine,
              runOps smP (Request.subscribe s').ops = some (smQ, [])
                ∧ smQ.mSubscriberList = smP.mSubscriberList ++ [s'.clone]
                ∧ smQ.mState = AgpsState.AGPS_STATE_PENDING := by
  have hempty : sm.mSubscriberList = [] :=
    releasedEmpty_runOps ops0 _ (sm, acts0) (fun _ => rfl) hreach hst
  obtain ⟨sm1, h1, h1s, h1l, h1t, h1m⟩ := unsubscribes_while_released pre hpre sm hst
  obtain ⟨sm2, h2, h2s, -⟩ := first_subscribe_opens sm1 s h1s (h1l.trans hempty)
  rw [h1t, h1m] at h2
  obtain ⟨sm3, h3, h3s⟩ := requests_while_pending post sm2 h2s
  refine ⟨sm1, sm2, sm3, h1, h2, h3, ?_, h3s, subscribe_while_pending_adds⟩
  have h23 := runOps_append _ sm1 _ _ _ h2 h3
  have h123 := runOps_append _ sm _ _ _ h1 h23
  have hops : requestOps (pre ++ Request.subscribe s :: post)
      = requestOps pre ++ ((Request.subscribe s).ops ++ requestOps post) := by
    rw [requestOps_append]
    rfl
  rw [hops, h123]
  rfl

/-- C4 (witness): on a newly constructed state machine, `UNSUBSCRIBE` 5, `SUBSCRIBE` 1,
`SUBSCRIBE` 2, `UNSUBSCRIBE` 1, `SUBSCRIBE` 3 invoke the open-request callback once. -/
theorem C4_single_open_request_witness :
    ∃ sm1 sm2 sm3 : AgpsStateMachine,
      runOps (newAgpsStateMachine 0 1 0)
          (requestOps [Request.unsubscribe (AgpsSubscriber.mk 5 false false 0)])
          = some (sm1, [])
        ∧ runOps sm1 (Request.subscribe (AgpsSubscriber.mk 1 false false 0)).ops
            = some (sm2, [AgpsAction.openRequest (newAgpsStateMachine 0 1 0).mAgpsType
                (newAgpsStateMachine 0 1 0).mApnTypeMask])
        ∧ runOps sm2
            (requestOps [Request.subscribe (AgpsSubscriber.mk 2 false false 0),
                         Request.unsubscribe (AgpsSubscriber.mk 1 false false 0),
                         Request.subscribe (AgpsSubscriber.mk 3 false false 0)])
            = some (sm3, [])
        ∧ runOps (newAgpsStateMachine 0 1 0)
            (requestOps ([Request.unsubscribe (AgpsSubscriber.mk 5 false false 0)]
              ++ Request.subscribe (AgpsSubscriber.mk 1 false false 0)
                :: [Request.subscribe (AgpsSubscriber.mk 2 false false 0),
                    Request.unsubscribe (AgpsSubscriber.mk 1 false false 0),
                    Request.subscribe (AgpsSubscriber.mk 3 false false 0)]))
            = some (sm3, [AgpsAction.openRequest (newAgpsStateMachine 0 1 0).mAgpsType
                (newAgpsStateMachine 0 1 0).mApnTypeMask])
        ∧ sm3.mState = AgpsState.AGPS_STATE_PENDING
        ∧ ∀ (smP : AgpsStateMachine) (s' : AgpsSubscriber),
            smP.mState = AgpsState.AGPS_STATE_PENDING → s'.mConnHandle ∉ smP.handles →
            ∃ smQ : AgpsStateMachine,
              runOps smP (Request.subscribe s').ops = some (smQ, [])
                ∧ smQ.mSubscriberList = smP.mSubscriberList ++ [s'.clone]
                ∧ smQ.mState = AgpsState.AGPS_STATE_PENDING :=
  C4_single_open_request 0 1 0 [] (newAgpsStateMachine 0 1 0) [] rfl rfl
    [Request.unsubscribe (AgpsSubscriber.mk 5 false false 0)]
    [Request.subscribe (AgpsSubscriber.mk 2 false false 0),
     Request.unsubscribe (AgpsSubscriber.mk 1 false false 0),
     Request.subscribe (AgpsSubscriber.mk 3 false false 0)]
    (AgpsSubscriber.mk 1 false false 0) (by decide)

/-! ### Processing an event is defined whenever a current subscriber is set -/

theorem addSubscriber_mCurrentSubscriber (sm : AgpsStateMachine) (s : AgpsSubscriber) :
    (sm.addSubscriber s).mCurrentSubscriber = sm.mCurrentSubscriber := by
  unfold AgpsStateMachine.addSubscriber
  split <;> rfl

theorem closeCompleted_mCurrentSubscriber (sm : AgpsStateMachine) :
    sm.closeCompleted.1.mCurrentSubscriber = sm.mCurrentSubscriber := by
  unfold AgpsStateMachine.closeCompleted
  split <;> rfl

theorem processAgpsEvent_mCurrentSubscriber (sm : AgpsStateMachine) (event : AgpsEvent)
    (r : AgpsStateMachine × List AgpsAction) (hr : sm.processAgpsEvent event = some r) :
    r.1.mCurrentSubscriber = sm.mCurrentSubscriber := by
  cases event <;>
    simp only [AgpsStateMachine.processAgpsEvent, AgpsStateMachine.processAgpsEventSubscribe,
      AgpsStateMachine.processAgpsEventUnsubscribe,
      AgpsStateMachine.processAgpsEventGranted,
      AgpsStateMachine.processAgpsEventReleased,
      AgpsStateMachine.processAgpsEventDenied] at hr
  case AGPS_EVENT_INVALID => cases hr; rfl
  case AGPS_EVENT_SUBSCRIBE =>
    split at hr
    · obtain ⟨s, -, rfl⟩ := Option.map_eq_some'.mp hr
      split
      · exact addSubscriber_mCurrentSubscriber sm s
      · exact addSubscriber_mCurrentSubscriber sm s
    · obtain ⟨s, -, rfl⟩ := Option.map_eq_some'.mp hr
      exact addSubscriber_mCurrentSubscriber sm s
    · obtain ⟨s, -, rfl⟩ := Option.map_eq_some'.mp hr
      exact addSubscriber_mCurrentSubscriber _ s
    · obtain ⟨s, -, rfl⟩ := Option.map_eq_some'.mp hr
      exact addSubscriber_mCurrentSubscriber sm s
    · cases hr; rfl
  case AGPS_EVENT_UNSUBSCRIBE =>
    split at hr
    · obtain ⟨s, -, rfl⟩ := Option.map_eq_some'.mp hr
      rfl
    · obtain ⟨s, -, rfl⟩ := Option.map_eq_some'.mp hr
      split
      · rfl
      · split <;> rfl
    · cases hr; rfl
  case AGPS_EVENT_GRANTED =>
    split at hr
    · split at hr
      · cases hr; rfl
      · cases hr
        simp only [AgpsStateMachine.notifyAllSubscribers, notifyEach_keep]
        rfl
    · cases hr; exact closeCompleted_mCurrentSubscriber sm
    · cases hr; rfl
  case AGPS_EVENT_RELEASED =>
    split at hr
    · cases hr; exact closeCompleted_mCurrentSubscriber sm
    · cases hr; rfl
  case AGPS_EVENT_DENIED =>
    split at hr
    · cases hr; rfl
    · cases hr; rfl

theorem processAgpsEvent_defined (sm : AgpsStateMachine) (event : AgpsEvent)
    (s : AgpsSubscriber) (hc : sm.mCurrentSubscriber = some s) :
    ∃ r, sm.processAgpsEvent event = some r := by
  cases event <;> cases hs : sm.mState <;>
    simp only [AgpsStateMachine.processAgpsEvent, AgpsStateMachine.processAgpsEventSubscribe,
      AgpsStateMachine.processAgpsEventUnsubscribe,
      AgpsStateMachine.processAgpsEventGranted,
      AgpsStateMachine.processAgpsEventReleased,
      AgpsStateMachine.processAgpsEventDenied, hs, hc, Option.map_some'] <;>
    first
      | exact ⟨_, rfl⟩
      | (split <;> exact ⟨_, rfl⟩)

theorem runOps_defined (ops : List Op) :
    ∀ (sm : AgpsStateMachine) (s : AgpsSubscriber), sm.mCurrentSubscriber = some s →
      (∀ op ∈ ops, op ≠ Op.setter (SetterCall.setCurrentSubscriber none)) →
      ∃ r, runOps sm ops = some r := by
  induction ops with
  | nil => intro sm s _ _; exact ⟨(sm, []), rfl⟩
  | cons op rest ih =>
    intro sm s hc hops
    have hrest : ∀ o ∈ rest, o ≠ Op.setter (SetterCall.setCurrentSubscriber none) :=
      fun o ho => hops o (List.mem_cons_of_mem _ ho)
    have hop := hops op (List.mem_cons_self _ _)
    have key : ∃ r1 s1, applyOp sm op = some r1 ∧ r1.1.mCurrentSubscriber = some s1 := by
      cases op with
      | setter c =>
        cases c with
        | setCurrentSubscriber x =>
          cases x with
          | none => exact absurd rfl hop
          | some y => exact ⟨_, y, rfl, rfl⟩
        | setBearer b => exact ⟨_, s, rfl, hc⟩
        | setApnTypeMask m => exact ⟨_, s, rfl, hc⟩
        | setType t => exact ⟨_, s, rfl, hc⟩
        | registerFrameworkStatusCallback cb => exact ⟨_, s, rfl, hc⟩
      | setAPN apn len => exact ⟨_, s, rfl, hc⟩
      | processAgpsEvent e =>
        obtain ⟨r, hr⟩ := processAgpsEvent_defined sm e s hc
        exact ⟨r, s, hr, (processAgpsEvent_mCurrentSubscriber sm e r hr).trans hc⟩
      | dropAllSubscribers => exact ⟨_, s, rfl, hc⟩
    obtain ⟨r1, s1, h1, hc1⟩ := key
    obtain ⟨r2, h2⟩ := ih r1.1 s1 hc1 hrest
    exact ⟨(r2.1, r1.2 ++ r2.2), by simp only [runOps, h1, h2]⟩

/-! ## Properties of AGnss.cpp, GnssMeasurement.cpp and GnssDebug.cpp -/

theorem dataConnOpen_valid (self : AGnss) (apn : List Nat) (t : ApnIpType)
    (hIface : self.nullGnssInterface = false) (hApn : apn ≠ []) :
    self.dataConnOpen apn t
      = (true, [AgpsDataConnOpenCall.mk LOC_AGPS_TYPE_SUPL apn apn.length
          (AGnss.dataConnOpen_bearerType t)]) := by
  have h2 : apn.isEmpty = false := by
    cases apn with
    | nil => exact absurd rfl hApn
    | cons a rest => rfl
  simp [AGnss.dataConnOpen, hIface, h2]

/-- C11: the mapping from the IP type to the bearer type is a total function: `IPV4` maps
to `AGPS_APN_BEARER_IPV4`, `IPV6` to `AGPS_APN_BEARER_IPV6`, `IPV4V6` to
`AGPS_APN_BEARER_IPV4V6` and every other value to `AGPS_APN_BEARER_IPV4`; and for every
IP type, `dataConnOpen` on a non-null GNSS interface with a non-empty APN forwards one
call, whose bearer type is the one mapped from the IP type; whenever it forwards a call at
all, the call carries that bearer type. -/
theorem C11_ipType_to_bearerType :
    AGnss.dataConnOpen_bearerType ApnIpType.IPV4 = AGpsBearerType.AGPS_APN_BEARER_IPV4
      ∧ AGnss.dataConnOpen_bearerType ApnIpType.IPV6 = AGpsBearerType.AGPS_APN_BEARER_IPV6
      ∧ AGnss.dataConnOpen_bearerType ApnIpType.IPV4V6
          = AGpsBearerType.AGPS_APN_BEARER_IPV4V6
      ∧ (∀ raw : Nat,
          AGnss.dataConnOpen_bearerType (ApnIpType.other raw)
            = AGpsBearerType.AGPS_APN_BEARER_IPV4)
      ∧ (∀ t : ApnIpType,
          AGnss.dataConnOpen_bearerType t ≠ AGpsBearerType.AGPS_APN_BEARER_INVALID)
      ∧ (∀ (self : AGnss) (apn : List Nat) (t : ApnIpType),
          ∀ call ∈ (self.dataConnOpen apn t).2,
            call.ipType = AGnss.dataConnOpen_bearerType t)
      ∧ (∀ (self : AGnss) (apn : List Nat) (t : ApnIpType),
          self.nullGnssInterface = false → apn ≠ [] →
          (self.dataConnOpen apn t).2.map (fun call => call.ipType)
            = [AGnss.dataConnOpen_bearerType t]) := by
  refine ⟨rfl, rfl, rfl, fun _ => rfl, ?_, ?_, ?_⟩
  · intro t
    cases t <;> simp [AGnss.dataConnOpen_bearerType]
  · intro self apn t call hcall
    unfold AGnss.dataConnOpen at hcall
    split at hcall
    · simp at hcall
    · split at hcall
      · simp at hcall
      · simp only [List.mem_singleton] at hcall
        rw [hcall]
  · intro self apn t hIface hApn
    rw [dataConnOpen_valid self apn t hIface hApn]
    rfl

/-- C11 (witness): on a non-null GNSS interface, `dataConnOpen` with the APN "a" and the
IP types `IPV6`, `IPV4V6` and an unknown value 9 forwards the bearer types
`AGPS_APN_BEARER_IPV6`, `AGPS_APN_BEARER_IPV4V6` and `AGPS_APN_BEARER_IPV4`. -/
theorem C11_ipType_to_bearerType_witness :
    ((AGnss.mk (some (Gnss.mk (some 1))) none).dataConnOpen [97] ApnIpType.IPV6).2.map
        (fun call => call.ipType) = [AGpsBearerType.AGPS_APN_BEARER_IPV6]
      ∧ ((AGnss.mk (some (Gnss.mk (some 1))) none).dataConnOpen [97] ApnIpType.IPV4V6).2.map
        (fun call => call.ipType) = [AGpsBearerType.AGPS_APN_BEARER_IPV4V6]
      ∧ ((AGnss.mk (some (Gnss.mk (some 1))) none).dataConnOpen [97]
          (ApnIpType.other 9)).2.map
        (fun call => call.ipType) = [AGpsBearerType.AGPS_APN_BEARER_IPV4] :=
  ⟨C11_ipType_to_bearerType.2.2.2.2.2.2 (AGnss.mk (some (Gnss.mk (some 1))) none) [97]
      ApnIpType.IPV6 rfl (by decide),
    C11_ipType_to_bearerType.2.2.2.2.2.2 (AGnss.mk (some (Gnss.mk (some 1))) none) [97]
      ApnIpType.IPV4V6 rfl (by decide),
    C11_ipType_to_bearerType.2.2.2.2.2.2 (AGnss.mk (some (Gnss.mk (some 1))) none) [97]
      (ApnIpType.other 9) rfl (by decide)⟩

/-- C13 (as amended): `registerATLCallbacks` stores the pair it is given whatever is
stored already: after two calls the stored callbacks are those of the later call, and the
state machines of the manager are unchanged. -/
theorem C13_registerATLCallbacks_overwrites (m : AgpsManager)
    (open1 close1 open2 close2 : Option Nat) :
    ((m.registerATLCallbacks open1 close1).registerATLCallbacks open2 close2).mAtlOpenStatusCb
        = open2
      ∧ ((m.registerATLCallbacks open1 close1).registerATLCallbacks open2 close2
          ).mAtlCloseStatusCb = close2
      ∧ ((m.registerATLCallbacks open1 close1).registerATLCallbacks open2 close2).mAgnssNif
          = m.mAgnssNif
      ∧ ((m.registerATLCallbacks open1 close1).registerATLCallbacks open2 close2
          ).mInternetNif = m.mInternetNif :=
  ⟨rfl, rfl, rfl, rfl⟩

/-- C13 (counterexample): on a manager that has stored the callbacks 1 and 2, a later
`registerATLCallbacks` with the callbacks 3 and 4 does not leave the stored callbacks
unchanged. -/
theorem C13_counterexample :
    ¬ (((newAgpsManager.registerATLCallbacks (some 1) (some 2)).registerATLCallbacks
            (some 3) (some 4)).mAtlOpenStatusCb
          = (newAgpsManager.registerATLCallbacks (some 1) (some 2)).mAtlOpenStatusCb
        ∧ ((newAgpsManager.registerATLCallbacks (some 1) (some 2)).registerATLCallbacks
            (some 3) (some 4)).mAtlCloseStatusCb
          = (newAgpsManager.registerATLCallbacks (some 1) (some 2)).mAtlCloseStatusCb) := by
  decide

/-- C18: for every subscriber `s`, `s.clone()` has the same connection handle,
wait-for-close-complete flag, inactive flag and APN-type mask as `s` (it is the same
value), and `s.equals(s.clone())` and `s.clone().equals(s)` are both true. -/
theorem C18_clone_preserves_fields (s : AgpsSubscriber) :
    s.clone.mConnHandle = s.mConnHandle
      ∧ s.clone.mWaitForCloseComplete = s.mWaitForCloseComplete
      ∧ s.clone.mIsInactive = s.mIsInactive
      ∧ s.clone.mApnTypeMask = s.mApnTypeMask
      ∧ s.clone = s
      ∧ s.equals s.clone = true
      ∧ s.clone.equals s = true := by
  refine ⟨rfl, rfl, rfl, rfl, rfl, ?_, ?_⟩ <;>
    simp [AgpsSubscriber.equals, AgpsSubscriber.clone]

/-! ### The static back-pointer `spAGnss` -/

theorem run_spAGnss (ops : List AGnssLifecycle) :
    ∀ w : AGnssStatics, (w.run ops).spAGnss = AGnssLifecycle.lastPointer w.spAGnss ops := by
  induction ops with
  | nil => intro w; rfl
  | cons op rest ih =>
    intro w
    show ((w.step op).run rest).spAGnss = _
    rw [ih]
    cases op <;> rfl

theorem run_spAGnss_is_last_alive (ops : List AGnssLifecycle) :
    ∀ w : AGnssStatics, (∀ obj, w.spAGnss = some obj → w.alive.getLast? = some obj) →
      ∀ obj, (w.run ops).spAGnss = some obj → (w.run ops).alive.getLast? = some obj := by
  induction ops with
  | nil => intro w h; exact h
  | cons op rest ih =>
    intro w _
    show ∀ obj, ((w.step op).run rest).spAGnss = some obj →
      ((w.step op).run rest).alive.getLast? = some obj
    apply ih
    intro obj hobj
    cases op with
    | construct o =>
      simp only [AGnssStatics.step, AGnssStatics.construct, Option.some.injEq] at hobj ⊢
      rw [List.getLast?_concat, hobj]
    | destroy o =>
      simp [AGnssStatics.step, AGnssStatics.destroy] at hobj

theorem run_oneAtATime (ops : List AGnssLifecycle) :
    ∀ w : AGnssStatics,
      ((w.alive = [] ∧ w.spAGnss = none) ∨ ∃ o, w.alive = [o] ∧ w.spAGnss = some o) →
      AGnssStatics.oneAtATime w ops = true →
      (((w.run ops).alive = [] ∧ (w.run ops).spAGnss = none)
        ∨ ∃ o, (w.run ops).alive = [o] ∧ (w.run ops).spAGnss = some o) := by
  induction ops with
  | nil => intro w h _; exact h
  | cons op rest ih =>
    intro w h hone
    show ((((w.step op).run rest).alive = [] ∧ ((w.step op).run rest).spAGnss = none)
        ∨ ∃ o, ((w.step op).run rest).alive = [o] ∧ ((w.step op).run rest).spAGnss = some o)
    cases op with
    | construct o =>
      simp only [AGnssStatics.oneAtATime, Bool.and_eq_true, List.isEmpty_iff] at hone
      apply ih _ _ hone.2
      right
      exact ⟨o, by simp [AGnssStatics.step, AGnssStatics.construct, hone.1], rfl⟩
    | destroy o =>
      simp only [AGnssStatics.oneAtATime, Bool.and_eq_true] at hone
      apply ih _ _ hone.2
      left
      refine ⟨?_, rfl⟩
      rcases h with ⟨hnil, -⟩ | ⟨o', hone', -⟩
      · simp [AGnssStatics.step, AGnssStatics.destroy, hnil]
      · have hmem : o = o' := by
          have := hone.1
          simpa [hone'] using this
        simp [AGnssStatics.step, AGnssStatics.destroy, hone', hmem]

/-- C14 (as amended): after every sequence of `AGnss` constructions and destructions,
`spAGnss` is the instance built by the last operation when that was a construction and
null when it was a destruction (of whatever instance); when it is non-null it refers to
the most recently constructed instance, which is still alive; when at most one instance
is alive at a time it refers to the alive instance and is null only when none is alive;
and `agnssStatusIpV4Cb` passes each status to the instance `spAGnss` refers to, to none
when it is null. -/
theorem C14_spAGnss_after_lifecycle (ops : List AGnssLifecycle) :
    (AGnssStatics.start.run ops).spAGnss = AGnssLifecycle.lastPointer none ops
      ∧ (∀ obj, (AGnssStatics.start.run ops).spAGnss = some obj →
          (AGnssStatics.start.run ops).alive.getLast? = some obj)
      ∧ (AGnssStatics.oneAtATime AGnssStatics.start ops = true →
          (AGnssStatics.start.run ops).pointsToLastAlive)
      ∧ (∀ status : AGnssExtStatusIpV4,
          (AGnssStatics.start.run ops).agnssStatusIpV4Cb status
            = (AGnssLifecycle.lastPointer none ops).map (fun obj => (obj, status))) := by
  have h1 := run_spAGnss ops AGnssStatics.start
  refine ⟨h1, ?_, ?_, ?_⟩
  · exact run_spAGnss_is_last_alive ops AGnssStatics.start (fun obj h => by cases h)
  · intro hone
    rcases run_oneAtATime ops AGnssStatics.start (Or.inl ⟨rfl, rfl⟩) hone with
      ⟨ha, hs⟩ | ⟨o, ha, hs⟩
    · simp [AGnssStatics.pointsToLastAlive, ha, hs]
    · simp [AGnssStatics.pointsToLastAlive, ha, hs]
  · intro status
    unfold AGnssStatics.agnssStatusIpV4Cb
    rw [h1]
    show (match AGnssLifecycle.lastPointer none ops with
          | some obj => some (obj, status)
          | none => none) = _
    cases AGnssLifecycle.lastPointer none ops <;> rfl

/-- C14 (witness): instance 1 is constructed and destroyed, then instance 2 is
constructed: `spAGnss` refers to instance 2, the only one alive. -/
theorem C14_spAGnss_after_lifecycle_witness :
    (AGnssStatics.start.run
        [AGnssLifecycle.construct 1, AGnssLifecycle.destroy 1,
         AGnssLifecycle.construct 2]).spAGnss = some 2
      ∧ (AGnssStatics.start.run
        [AGnssLifecycle.construct 1, AGnssLifecycle.destroy 1,
         AGnssLifecycle.construct 2]).pointsToLastAlive :=
  ⟨(C14_spAGnss_after_lifecycle
      [AGnssLifecycle.construct 1, AGnssLifecycle.destroy 1,
       AGnssLifecycle.construct 2]).1,
    (C14_spAGnss_after_lifecycle
      [AGnssLifecycle.construct 1, AGnssLifecycle.destroy 1,
       AGnssLifecycle.construct 2]).2.2.1 (by decide)⟩

/-- C14 (counterexample): instance 1 is constructed, instance 2 is constructed, instance 2
is destroyed: instance 1 is alive, and the most recently constructed one alive, but
`spAGnss` is null, so `agnssStatusIpV4Cb` passes the status to no instance. -/
theorem C14_counterexample :
    (AGnssStatics.start.run
        [AGnssLifecycle.construct 1, AGnssLifecycle.construct 2,
         AGnssLifecycle.destroy 2]).alive = [1]
      ∧ (AGnssStatics.start.run
        [AGnssLifecycle.construct 1, AGnssLifecycle.construct 2,
         AGnssLifecycle.destroy 2]).spAGnss = none
      ∧ ¬ (AGnssStatics.start.run
        [AGnssLifecycle.construct 1, AGnssLifecycle.construct 2,
         AGnssLifecycle.destroy 2]).pointsToLastAlive := by
  refine ⟨by decide, by decide, ?_⟩
  show ¬ (_ = _)
  decide

/-! ### The status bridge `AGnss::statusIpV4Cb` -/

/-- C15: for every status passed to `AGnss::statusIpV4Cb` (the value of
`LOC_AGPS_TYPE_C2K` being different from those of `LOC_AGPS_TYPE_SUPL`,
`LOC_AGPS_TYPE_WWAN_ANY` and `LOC_AGPS_TYPE_SUPL_ES`), the framework callback is invoked
at most once, and it is invoked if and only if a callback is set, the type is
`LOC_AGPS_TYPE_SUPL` or `LOC_AGPS_TYPE_C2K`, and the status value is one of `REQUEST`,
`RELEASE`, `CONNECTED`, `CONN_DONE`, `CONN_FAILED`; what is delivered goes to the callback
that is set and has the corresponding type, the corresponding status value and the same
`ipV4Addr`. For the types `LOC_AGPS_TYPE_SUPL_ES` and `LOC_AGPS_TYPE_WWAN_ANY` nothing is
delivered. -/
theorem C15_statusIpV4Cb (locAgpsTypeC2K : AGpsExtType) (self : AGnss)
    (status : AGnssExtStatusIpV4)
    (hSupl : locAgpsTypeC2K ≠ LOC_AGPS_TYPE_SUPL)
    (hWwan : locAgpsTypeC2K ≠ LOC_AGPS_TYPE_WWAN_ANY)
    (hSuplEs : locAgpsTypeC2K ≠ LOC_AGPS_TYPE_SUPL_ES) :
    (self.statusIpV4Cb locAgpsTypeC2K status).length ≤ 1
      ∧ (self.statusIpV4Cb locAgpsTypeC2K status ≠ []
          ↔ (self.mAGnssCbIface ≠ none
              ∧ (status.type = LOC_AGPS_TYPE_SUPL ∨ status.type = locAgpsTypeC2K)
              ∧ status.status.isNamed = true))
      ∧ (∀ d ∈ self.statusIpV4Cb locAgpsTypeC2K status,
          self.mAGnssCbIface = some d.1
            ∧ d.2.type.correspondsTo locAgpsTypeC2K status.type
            ∧ d.2.status.correspondsTo status.status
            ∧ d.2.ipV4Addr = status.ipV4Addr)
      ∧ ((status.type = LOC_AGPS_TYPE_SUPL_ES ∨ status.type = LOC_AGPS_TYPE_WWAN_ANY) →
          self.statusIpV4Cb locAgpsTypeC2K status = []) := by
  have hne35 : LOC_AGPS_TYPE_SUPL_ES ≠ LOC_AGPS_TYPE_SUPL
      ∧ LOC_AGPS_TYPE_WWAN_ANY ≠ LOC_AGPS_TYPE_SUPL := by
    constructor <;> decide
  by_cases hs : status.type = LOC_AGPS_TYPE_SUPL
  · have hc : status.type ≠ locAgpsTypeC2K := fun h => hSupl (h.symm.trans hs)
    have hes : status.type ≠ LOC_AGPS_TYPE_SUPL_ES := fun h => hne35.1 (h.symm.trans hs)
    have hww : status.type ≠ LOC_AGPS_TYPE_WWAN_ANY := fun h => hne35.2 (h.symm.trans hs)
    cases hst : status.status <;> cases hcb : self.mAGnssCbIface <;>
      simp [AGnss.statusIpV4Cb, hs, hst, hcb, LocAGpsStatusValue.isNamed,
        AGnssType.correspondsTo, AGnssStatusValue.correspondsTo, hne35.1, hne35.2] <;>
      exact ⟨by decide, by decide⟩
  · by_cases hc : status.type = locAgpsTypeC2K
    · have hes : status.type ≠ LOC_AGPS_TYPE_SUPL_ES := fun h => hSuplEs (hc.symm.trans h)
      have hww : status.type ≠ LOC_AGPS_TYPE_WWAN_ANY := fun h => hWwan (hc.symm.trans h)
      cases hst : status.status <;> cases hcb : self.mAGnssCbIface <;>
        simp [AGnss.statusIpV4Cb, hs, hc, hst, hcb, LocAGpsStatusValue.isNamed,
          AGnssType.correspondsTo, AGnssStatusValue.correspondsTo, hes, hww, hSupl,
          hWwan, hSuplEs]
    · simp [AGnss.statusIpV4Cb, hs, hc]

/-- C15 (witness): with `LOC_AGPS_TYPE_C2K` = 2, a `CONNECTED` status of type C2K with
address 7 on an instance whose callback is set. -/
theorem C15_statusIpV4Cb_witness :
    ((AGnss.mk none (some 9)).statusIpV4Cb 2
        (AGnssExtStatusIpV4.mk 2 LocAGpsStatusValue.LOC_GPS_AGPS_DATA_CONNECTED 7)).length ≤ 1
      ∧ ((AGnss.mk none (some 9)).statusIpV4Cb 2
          (AGnssExtStatusIpV4.mk 2 LocAGpsStatusValue.LOC_GPS_AGPS_DATA_CONNECTED 7) ≠ []
          ↔ ((AGnss.mk none (some 9)).mAGnssCbIface ≠ none
              ∧ ((AGnssExtStatusIpV4.mk 2 LocAGpsStatusValue.LOC_GPS_AGPS_DATA_CONNECTED
                    7).type = LOC_AGPS_TYPE_SUPL
                  ∨ (AGnssExtStatusIpV4.mk 2 LocAGpsStatusValue.LOC_GPS_AGPS_DATA_CONNECTED
                    7).type = 2)
              ∧ (AGnssExtStatusIpV4.mk 2 LocAGpsStatusValue.LOC_GPS_AGPS_DATA_CONNECTED
                    7).status.isNamed = true))
      ∧ (AGnss.mk none (some 9)).statusIpV4Cb 2
          (AGnssExtStatusIpV4.mk 2 LocAGpsStatusValue.LOC_GPS_AGPS_DATA_CONNECTED 7)
          = [(9, AGnssStatusIpV4.mk AGnssType.TYPE_C2K AGnssStatusValue.AGNSS_DATA_CONNECTED
              7)] :=
  ⟨(C15_statusIpV4Cb 2 (AGnss.mk none (some 9))
      (AGnssExtStatusIpV4.mk 2 LocAGpsStatusValue.LOC_GPS_AGPS_DATA_CONNECTED 7)
      (by decide) (by decide) (by decide)).1,
    (C15_statusIpV4Cb 2 (AGnss.mk none (some 9))
      (AGnssExtStatusIpV4.mk 2 LocAGpsStatusValue.LOC_GPS_AGPS_DATA_CONNECTED 7)
      (by decide) (by decide) (by decide)).2.1,
    by decide⟩

/-! ### The callback slots of `GnssMeasurement` -/

/-- C16: for every `GnssMeasurement` object and callback argument (the API client itself
never answering `ERROR_ALREADY_INIT`), `setCallback` (resp. `setCallback_1_1`) returns
`ERROR_ALREADY_INIT` if and only if its own slot (1.0 resp. 1.1) is non-null, whatever
the argument and the API client are; otherwise it returns `ERROR_GENERIC` when the
argument or the API client is null; in both error cases the object, with both slots, is
unchanged; otherwise the argument is stored in that slot, the other slot and the API
client are unchanged, and the answer of the API client is returned. -/
theorem C16_setCallback_status
    (measurementSetCallback : Nat → GnssMeasurementStatus)
    (measurementSetCallback_1_1 : Nat → GnssPowerMode → GnssMeasurementStatus)
    (self : GnssMeasurement) (callback : Option Nat) (enableFullTracking : Bool)
    (hApi : ∀ cb, measurementSetCallback cb ≠ GnssMeasurementStatus.ERROR_ALREADY_INIT)
    (hApi11 : ∀ cb mode,
      measurementSetCallback_1_1 cb mode ≠ GnssMeasurementStatus.ERROR_ALREADY_INIT) :
    (((self.setCallback measurementSetCallback callback).1
          = GnssMeasurementStatus.ERROR_ALREADY_INIT
        ↔ self.mGnssMeasurementCbIface ≠ none)
      ∧ (self.mGnssMeasurementCbIface ≠ none →
          (self.setCallback measurementSetCallback callback).2 = self)
      ∧ (self.mGnssMeasurementCbIface = none → (callback = none ∨ self.mApi = none) →
          self.setCallback measurementSetCallback callback
            = (GnssMeasurementStatus.ERROR_GENERIC, self))
      ∧ (∀ cb, self.mGnssMeasurementCbIface = none → callback = some cb →
          self.mApi ≠ none →
          self.setCallback measurementSetCallback callback
            = (measurementSetCallback cb,
               GnssMeasurement.mk self.mApi (some cb) self.mGnssMeasurementCbIface_1_1)))
    ∧ (((self.setCallback_1_1 measurementSetCallback_1_1 callback enableFullTracking).1
          = GnssMeasurementStatus.ERROR_ALREADY_INIT
        ↔ self.mGnssMeasurementCbIface_1_1 ≠ none)
      ∧ (self.mGnssMeasurementCbIface_1_1 ≠ none →
          (self.setCallback_1_1 measurementSetCallback_1_1 callback enableFullTracking).2
            = self)
      ∧ (self.mGnssMeasurementCbIface_1_1 = none → (callback = none ∨ self.mApi = none) →
          self.setCallback_1_1 measurementSetCallback_1_1 callback enableFullTracking
            = (GnssMeasurementStatus.ERROR_GENERIC, self))
      ∧ (∀ cb, self.mGnssMeasurementCbIface_1_1 = none → callback = some cb →
          self.mApi ≠ none →
          self.setCallback_1_1 measurementSetCallback_1_1 callback enableFullTracking
            = (measurementSetCallback_1_1 cb
                (if enableFullTracking then GnssPowerMode.GNSS_POWER_MODE_M1
                  else GnssPowerMode.GNSS_POWER_MODE_M2),
               GnssMeasurement.mk self.mApi self.mGnssMeasurementCbIface (some cb)))) := by
  obtain ⟨api, slot, slot11⟩ := self
  constructor
  · cases slot with
    | some s => simp [GnssMeasurement.setCallback]
    | none =>
      cases callback with
      | none => simp [GnssMeasurement.setCallback]
      | some cb =>
        cases api with
        | none => simp [GnssMeasurement.setCallback]
        | some a => simp [GnssMeasurement.setCallback, hApi]
  · cases slot11 with
    | some s => simp [GnssMeasurement.setCallback_1_1]
    | none =>
      cases callback with
      | none => simp [GnssMeasurement.setCallback_1_1]
      | some cb =>
        cases api with
        | none => simp [GnssMeasurement.setCallback_1_1]
        | some a => simp [GnssMeasurement.setCallback_1_1, hApi11]

/-- C16 (witness): an API client that always answers `SUCCESS`, an object with API client
5, the 1.0 slot empty and the 1.1 slot holding callback 8, and the argument 3. -/
theorem C16_setCallback_status_witness :
    (GnssMeasurement.mk (some 5) none (some 8)).setCallback
        (fun _ => GnssMeasurementStatus.SUCCESS) (some 3)
        = (GnssMeasurementStatus.SUCCESS, GnssMeasurement.mk (some 5) (some 3) (some 8))
      ∧ ((GnssMeasurement.mk (some 5) none (some 8)).setCallback_1_1
          (fun _ _ => GnssMeasurementStatus.SUCCESS) (some 3) true).1
        = GnssMeasurementStatus.ERROR_ALREADY_INIT :=
  ⟨(C16_setCallback_status (fun _ => GnssMeasurementStatus.SUCCESS)
      (fun _ _ => GnssMeasurementStatus.SUCCESS) (GnssMeasurement.mk (some 5) none (some 8))
      (some 3) true (fun _ h => by cases h) (fun _ _ h => by cases h)).1.2.2.2 3 rfl rfl
      (by decide),
    (C16_setCallback_status (fun _ => GnssMeasurementStatus.SUCCESS)
      (fun _ _ => GnssMeasurementStatus.SUCCESS) (GnssMeasurement.mk (some 5) none (some 8))
      (some 3) true (fun _ h => by cases h) (fun _ _ h => by cases h)).2.1.mpr
      (by decide)⟩

/-! ### The bounds of `GnssDebug::getDebugData` -/

theorem accuracy_clamp (x bound : ℚ) (hb : 0 < bound) :
    (if x ≤ 0 ∨ x > bound then bound else x)
        = (if 0 < x ∧ x ≤ bound then x else bound)
      ∧ 0 < (if x ≤ 0 ∨ x > bound then bound else x)
      ∧ (if x ≤ 0 ∨ x > bound then bound else x) ≤ bound := by
  by_cases h1 : x ≤ 0
  · have h2 : ¬ (0 < x ∧ x ≤ bound) := fun h => absurd h.1 (not_lt.mpr h1)
    simp [h1, h2, hb]
  · by_cases h3 : x > bound
    · have h2 : ¬ (0 < x ∧ x ≤ bound) := fun h => absurd h.2 (not_le.mpr h3)
      simp [h3, h2, hb]
    · have h4 : 0 < x ∧ x ≤ bound := ⟨not_le.mp h1, not_lt.mp h3⟩
      simp [h1, h3, h4]

theorem clampedAccuracy_eq (valid : Bool) (reported bound : ℚ) (hb : 0 < bound) :
    (if (if valid then reported else 0) ≤ 0 ∨ (if valid then reported else 0) > bound
        then bound else (if valid then reported else 0))
      = clampedAccuracy valid reported bound := by
  unfold clampedAccuracy
  cases valid
  · simp
  · simp only [if_true, true_and]
    exact (accuracy_clamp reported bound hb).1

theorem locationBlock_accuracies (reports : GnssDebugReport) :
    (GnssDebug.locationBlock DebugData.zero reports).position.horizontalAccuracyMeters
        = (if reports.mLocation.mValid then reports.mLocation.accuracy else 0)
      ∧ (GnssDebug.locationBlock DebugData.zero reports).position.verticalAccuracyMeters
        = (if reports.mLocation.mValid then reports.mLocation.verticalAccuracyMeters else 0)
      ∧ (GnssDebug.locationBlock DebugData.zero reports).position.speedAccuracyMetersPerSecond
        = (if reports.mLocation.mValid then reports.mLocation.speedAccuracyMetersPerSecond
            else 0)
      ∧ (GnssDebug.locationBlock DebugData.zero reports).position.bearingAccuracyDegrees
        = (if reports.mLocation.mValid then reports.mLocation.bearingAccuracyDegrees else 0)
      ∧ (GnssDebug.locationBlock DebugData.zero reports).timeEstimate = 0 := by
  cases hv : reports.mLocation.mValid <;>
    simp [GnssDebug.locationBlock, DebugData.zero, hv]

theorem timeBlock_timeEstimate (data : DebugData) (reports : GnssDebugReport)
    (h0 : data.timeEstimate = 0) :
    (GnssDebug.timeBlock data reports).timeEstimate
      = max GNSS_DEBUG_UNKNOWN_UTC_TIME
          (if reports.mTime.mValid then reports.mTime.timeEstimate else 0) := by
  simp only [GnssDebug.timeBlock, h0]
  rw [max_def]
  split_ifs <;> omega

/-- C17: for every debug report, when the GNSS interface is non-null (values taken as
exact numbers), `getDebugData` returns horizontal, vertical, speed and bearing accuracies
that are `> 0` and at most 20000000, 20000, 500 and 180 respectively: each is the
reported value when the location block is valid and the reported value lies in that
range, and the upper bound otherwise; and the returned time estimate is the maximum of
1483228800000 and the reported time estimate (0 when the time block is invalid). -/
theorem C17_getDebugData_bounds (self : GnssDebug) (reports : GnssDebugReport)
    (hIface : self.nullGnssInterface = false) :
    ((self.getDebugData reports).position.horizontalAccuracyMeters
        = clampedAccuracy reports.mLocation.mValid reports.mLocation.accuracy 20000000
      ∧ 0 < (self.getDebugData reports).position.horizontalAccuracyMeters
      ∧ (self.getDebugData reports).position.horizontalAccuracyMeters ≤ 20000000)
    ∧ ((self.getDebugData reports).position.verticalAccuracyMeters
        = clampedAccuracy reports.mLocation.mValid
            reports.mLocation.verticalAccuracyMeters 20000
      ∧ 0 < (self.getDebugData reports).position.verticalAccuracyMeters
      ∧ (self.getDebugData reports).position.verticalAccuracyMeters ≤ 20000)
    ∧ ((self.getDebugData reports).position.speedAccuracyMetersPerSecond
        = clampedAccuracy reports.mLocation.mValid
            reports.mLocation.speedAccuracyMetersPerSecond 500
      ∧ 0 < (self.getDebugData reports).position.speedAccuracyMetersPerSecond
      ∧ (self.getDebugData reports).position.speedAccuracyMetersPerSecond ≤ 500)
    ∧ ((self.getDebugData reports).position.bearingAccuracyDegrees
        = clampedAccuracy reports.mLocation.mValid
            reports.mLocation.bearingAccuracyDegrees 180
      ∧ 0 < (self.getDebugData reports).position.bearingAccuracyDegrees
      ∧ (self.getDebugData reports).position.bearingAccuracyDegrees ≤ 180)
    ∧ (self.getDebugData reports).timeEstimate
        = max 1483228800000 (if reports.mTime.mValid then reports.mTime.timeEstimate else 0)
      := by
  have hd : self.getDebugData reports
      = GnssDebug.timeBlock
          (GnssDebug.accuracyBlock (GnssDebug.locationBlock DebugData.zero reports))
          reports := by
    simp [GnssDebug.getDebugData, hIface]
  obtain ⟨hh, hv, hs, hb, ht⟩ := locationBlock_accuracies reports
  rw [hd]
  have b1 : (0 : ℚ) < 20000000 := by norm_num
  have b2 : (0 : ℚ) < 20000 := by norm_num
  have b3 : (0 : ℚ) < 500 := by norm_num
  have b4 : (0 : ℚ) < 180 := by norm_num
  refine ⟨⟨?_, ?_, ?_⟩, ⟨?_, ?_, ?_⟩, ⟨?_, ?_, ?_⟩, ⟨?_, ?_, ?_⟩, ?_⟩
  · show (if _ ≤ (0 : ℚ) ∨ _ > GNSS_DEBUG_UNKNOWN_HORIZONTAL_ACCURACY_METERS then _ else _)
      = _
    rw [hh]
    exact clampedAccuracy_eq _ _ _ b1
  · show 0 < (if _ ≤ (0 : ℚ) ∨ _ > GNSS_DEBUG_UNKNOWN_HORIZONTAL_ACCURACY_METERS
      then _ else _)
    exact (accuracy_clamp _ _ b1).2.1
  · show (if _ ≤ (0 : ℚ) ∨ _ > GNSS_DEBUG_UNKNOWN_HORIZONTAL_ACCURACY_METERS then _ else _)
      ≤ _
    exact (accuracy_clamp _ _ b1).2.2
  · show (if _ ≤ (0 : ℚ) ∨ _ > GNSS_DEBUG_UNKNOWN_VERTICAL_ACCURACY_METERS then _ else _)
      = _
    rw [hv]
    exact clampedAccuracy_eq _ _ _ b2
  · show 0 < (if _ ≤ (0 : ℚ) ∨ _ > GNSS_DEBUG_UNKNOWN_VERTICAL_ACCURACY_METERS
      then _ else _)
    exact (accuracy_clamp _ _ b2).2.1
  · show (if _ ≤ (0 : ℚ) ∨ _ > GNSS_DEBUG_UNKNOWN_VERTICAL_ACCURACY_METERS then _ else _)
      ≤ _
    exact (accuracy_clamp _ _ b2).2.2
  · show (if _ ≤ (0 : ℚ) ∨ _ > GNSS_DEBUG_UNKNOWN_SPEED_ACCURACY_PER_SEC then _ else _)
      = _
    rw [hs]
    exact clampedAccuracy_eq _ _ _ b3
  · show 0 < (if _ ≤ (0 : ℚ) ∨ _ > GNSS_DEBUG_UNKNOWN_SPEED_ACCURACY_PER_SEC
      then _ else _)
    exact (accuracy_clamp _ _ b3).2.1
  · show (if _ ≤ (0 : ℚ) ∨ _ > GNSS_DEBUG_UNKNOWN_SPEED_ACCURACY_PER_SEC then _ else _)
      ≤ _
    exact (accuracy_clamp _ _ b3).2.2
  · show (if _ ≤ (0 : ℚ) ∨ _ > GNSS_DEBUG_UNKNOWN_BEARING_ACCURACY_DEG then _ else _)
      = _
    rw [hb]
    exact clampedAccuracy_eq _ _ _ b4
  · show 0 < (if _ ≤ (0 : ℚ) ∨ _ > GNSS_DEBUG_UNKNOWN_BEARING_ACCURACY_DEG
      then _ else _)
    exact (accuracy_clamp _ _ b4).2.1
  · show (if _ ≤ (0 : ℚ) ∨ _ > GNSS_DEBUG_UNKNOWN_BEARING_ACCURACY_DEG then _ else _)
      ≤ _
    exact (accuracy_clamp _ _ b4).2.2
  · exact timeBlock_timeEstimate _ reports ht

/-- C17 (witness): the sample report on an object whose GNSS interface is non-null: the
horizontal accuracy 5 and the bearing accuracy 90 are kept, the vertical accuracy 30000
becomes 20000, the speed accuracy -1 becomes 500, the time estimate is kept. -/
theorem C17_getDebugData_bounds_witness :
    ((GnssDebug.mk (some (Gnss.mk (some 1)))).getDebugData
        sampleDebugReport).position.horizontalAccuracyMeters = 5
      ∧ ((GnssDebug.mk (some (Gnss.mk (some 1)))).getDebugData
        sampleDebugReport).position.verticalAccuracyMeters = 20000
      ∧ ((GnssDebug.mk (some (Gnss.mk (some 1)))).getDebugData
        sampleDebugReport).position.speedAccuracyMetersPerSecond = 500
      ∧ ((GnssDebug.mk (some (Gnss.mk (some 1)))).getDebugData
        sampleDebugReport).position.bearingAccuracyDegrees = 90
      ∧ ((GnssDebug.mk (some (Gnss.mk (some 1)))).getDebugData
        sampleDebugReport).timeEstimate = 1500000000000 := by
  have h := C17_getDebugData_bounds (GnssDebug.mk (some (Gnss.mk (some 1))))
    sampleDebugReport rfl
  obtain ⟨⟨h1, -, -⟩, ⟨h2, -, -⟩, ⟨h3, -, -⟩, ⟨h4, -, -⟩, h5⟩ := h
  refine ⟨?_, ?_, ?_, ?_, ?_⟩
  · rw [h1]; norm_num [clampedAccuracy, sampleDebugReport]
  · rw [h2]; norm_num [clampedAccuracy, sampleDebugReport]
  · rw [h3]; norm_num [clampedAccuracy, sampleDebugReport]
  · rw [h4]; norm_num [clampedAccuracy, sampleDebugReport]
  · rw [h5]; norm_num [sampleDebugReport]

/-! ### `GRANTED` in `PENDING` notifies the subscribers in list order -/

theorem allActive_addSubscriber (sm : AgpsStateMachine) (s : AgpsSubscriber)
    (h : ∀ x ∈ sm.mSubscriberList, x.mIsInactive = false) (hs : s.mIsInactive = false) :
    ∀ x ∈ (sm.addSubscriber s).mSubscriberList, x.mIsInactive = false := by
  unfold AgpsStateMachine.addSubscriber
  split
  · exact h
  · intro x hx
    simp only [List.mem_append, List.mem_singleton] at hx
    rcases hx with hx | rfl
    · exact h x hx
    · exact hs

theorem allActive_filter (sm : AgpsStateMachine) (p : AgpsSubscriber → Bool)
    (h : ∀ x ∈ sm.mSubscriberList, x.mIsInactive = false) :
    ∀ x ∈ sm.mSubscriberList.filter p, x.mIsInactive = false :=
  fun x hx => h x (List.mem_of_mem_filter hx)

theorem allActive_processAgpsEvent (sm : AgpsStateMachine) (event : AgpsEvent)
    (r : AgpsStateMachine × List AgpsAction)
    (h : ∀ x ∈ sm.mSubscriberList, x.mIsInactive = false)
    (hcur : ∀ s, sm.mCurrentSubscriber = some s → s.mIsInactive = false)
    (hr : sm.processAgpsEvent event = some r) :
    ∀ x ∈ r.1.mSubscriberList, x.mIsInactive = false := by
  have hnil : ∀ x ∈ ([] : List AgpsSubscriber), x.mIsInactive = false := by
    intro x hx; cases hx
  have hclose : ∀ x ∈ sm.closeCompleted.1.mSubscriberList, x.mIsInactive = false := by
    unfold AgpsStateMachine.closeCompleted
    split
    · exact allActive_filter sm _ h
    · exact hnil
  cases event <;>
    simp only [AgpsStateMachine.processAgpsEvent, AgpsStateMachine.processAgpsEventSubscribe,
      AgpsStateMachine.processAgpsEventUnsubscribe,
      AgpsStateMachine.processAgpsEventGranted,
      AgpsStateMachine.processAgpsEventReleased,
      AgpsStateMachine.processAgpsEventDenied] at hr
  case AGPS_EVENT_INVALID =>
    cases hr; exact h
  case AGPS_EVENT_SUBSCRIBE =>
    split at hr
    · obtain ⟨s, hs, rfl⟩ := Option.map_eq_some'.mp hr
      split
      · exact allActive_addSubscriber sm s h (hcur s hs)
      · exact allActive_addSubscriber sm s h (hcur s hs)
    · obtain ⟨s, hs, rfl⟩ := Option.map_eq_some'.mp hr
      exact allActive_addSubscriber sm s h (hcur s hs)
    · obtain ⟨s, hs, rfl⟩ := Option.map_eq_some'.mp hr
      exact allActive_addSubscriber _ s h (hcur s hs)
    · obtain ⟨s, hs, rfl⟩ := Option.map_eq_some'.mp hr
      exact allActive_addSubscriber sm s h (hcur s hs)
    · cases hr; exact h
  case AGPS_EVENT_UNSUBSCRIBE =>
    split at hr
    · obtain ⟨s, -, rfl⟩ := Option.map_eq_some'.mp hr
      exact allActive_filter sm _ h
    · obtain ⟨s, -, rfl⟩ := Option.map_eq_some'.mp hr
      split
      · exact h
      · split
        · exact allActive_filter sm _ h
        · exact allActive_filter sm _ h
    · cases hr; exact h
  case AGPS_EVENT_GRANTED =>
    split at hr
    · split at hr
      · cases hr; exact h
      · cases hr
        simp only [AgpsStateMachine.notifyAllSubscribers, notifyEach_keep]
        exact h
    · cases hr; exact hclose
    · cases hr; exact h
  case AGPS_EVENT_RELEASED =>
    split at hr
    · cases hr; exact hclose
    · cases hr; exact h
  case AGPS_EVENT_DENIED =>
    split at hr
    · cases hr; exact hnil
    · cases hr; exact h

theorem allActive_applyOp (sm : AgpsStateMachine) (op : Op)
    (r : AgpsStateMachine × List AgpsAction)
    (h : ∀ x ∈ sm.mSubscriberList, x.mIsInactive = false)
    (hcur : ∀ s, sm.mCurrentSubscriber = some s → s.mIsInactive = false)
    (hop : op.carriesActiveSubscriber = true)
    (hr : applyOp sm op = some r) :
    (∀ x ∈ r.1.mSubscriberList, x.mIsInactive = false)
      ∧ (∀ s, r.1.mCurrentSubscriber = some s → s.mIsInactive = false) := by
  cases op with
  | setter c =>
    cases hr
    cases c with
    | setCurrentSubscriber x =>
      refine ⟨h, ?_⟩
      intro s hs
      cases x with
      | none => cases hs
      | some y =>
        cases hs
        simpa [Op.carriesActiveSubscriber] using hop
    | setBearer b => exact ⟨h, hcur⟩
    | setApnTypeMask m => exact ⟨h, hcur⟩
    | setType t => exact ⟨h, hcur⟩
    | registerFrameworkStatusCallback cb => exact ⟨h, hcur⟩
  | setAPN apn len => cases hr; exact ⟨h, hcur⟩
  | processAgpsEvent e =>
    refine ⟨allActive_processAgpsEvent sm e r h hcur hr, ?_⟩
    rw [processAgpsEvent_mCurrentSubscriber sm e r hr]
    exact hcur
  | dropAllSubscribers =>
    cases hr
    refine ⟨?_, hcur⟩
    intro x hx
    cases hx

theorem allActive_runOps (ops : List Op) :
    ∀ (sm : AgpsStateMachine) (r : AgpsStateMachine × List AgpsAction),
      (∀ x ∈ sm.mSubscriberList, x.mIsInactive = false) →
      (∀ s, sm.mCurrentSubscriber = some s → s.mIsInactive = false) →
      ops.all Op.carriesActiveSubscriber = true →
      runOps sm ops = some r →
      ∀ x ∈ r.1.mSubscriberList, x.mIsInactive = false := by
  induction ops with
  | nil =>
    intro sm r h _ _ hr
    cases hr
    exact h
  | cons op rest ih =>
    intro sm r h hcur hops hr
    obtain ⟨r1, r2, h1, h2, rfl⟩ := runOps_cons_some sm op rest r hr
    simp only [List.all_cons, Bool.and_eq_true] at hops
    obtain ⟨ha, hc⟩ := allActive_applyOp sm op r1 h hcur hops.1 h1
    exact ih r1.1 r2 ha hc hops.2 h2

/-- C3: for every state machine reached from a newly constructed one by public operations
(the subscribers being active when they are handed to the state machine, as the manager
builds them), if it is in `PENDING` with a non-empty subscriber list, processing `GRANTED`
notifies every subscriber of the list with `GRANTED` exactly once, in insertion order, and
leaves the state `ACQUIRED`. -/
theorem C3_granted_notifies_all_in_order (agpsManager : Nat) (t : AGpsExtType)
    (uninitMask : LocApnTypeMask) (ops : List Op) (sm : AgpsStateMachine)
    (acts : List AgpsAction)
    (hreach : runOps (newAgpsStateMachine agpsManager t uninitMask) ops = some (sm, acts))
    (hops : ops.all Op.carriesActiveSubscriber = true)
    (hst : sm.mState = AgpsState.AGPS_STATE_PENDING)
    (hne : sm.mSubscriberList ≠ []) :
    grantedNotifiesInListOrder sm :=
  granted_in_list_order_of_all_active sm hst hne
    (allActive_runOps ops _ (sm, acts) (fun x hx => by cases hx) (fun s hs => by cases hs)
      hops hreach)

/-- C3 (witness): subscribers 1 then 2 in `PENDING`, reached from a new state machine by
`SUBSCRIBE` of 1 and then of 2, are notified of `GRANTED` 1 then 2. -/
theorem C3_granted_notifies_all_in_order_witness :
    grantedNotifiesInListOrder pendingOneThenTwo
      ∧ (pendingOneThenTwo.processAgpsEvent AgpsEvent.AGPS_EVENT_GRANTED).map (fun r => r.2)
        = some [AgpsAction.notify 1 AgpsEvent.AGPS_EVENT_GRANTED none 0
                  AGpsBearerType.AGPS_APN_BEARER_INVALID 1,
                AgpsAction.notify 2 AgpsEvent.AGPS_EVENT_GRANTED none 0
                  AGpsBearerType.AGPS_APN_BEARER_INVALID 1] :=
  ⟨C3_granted_notifies_all_in_order 0 1 0
      (requestOps [Request.subscribe (AgpsSubscriber.mk 1 false false 0),
                   Request.subscribe (AgpsSubscriber.mk 2 false false 0)])
      pendingOneThenTwo [AgpsAction.openRequest 1 0] (by decide) (by decide) rfl
      (by decide),
    by decide⟩
